import Mathlib

/-!
# The `create` command of the project scaffolding CLI

A shallow embedding of `runCreateCmd` (`cmd/create.go`) as a pure function from
the package-level variables and the answers of its external collaborators to the
final variables, the chronological trace of external calls, and the way the
process leaves the function.

Everything the command calls lives outside `cmd/create.go`: the `cgapp` helpers,
`survey.Ask`, `os.Getwd`, `strings.ToLower` and the clock.  Their answers are the
fields of `World`; the static data of the `registry` package are the fields of
`Registry`.

Conventions of the embedding:

* every external call returns to `runCreateCmd` (with a nil or a non-nil error); each call
  is recorded in the trace together with what it returned;
* no two calls of the function receive the same arguments, so answers that are functions
  of the arguments describe every possible sequence of results;
* reading the clock is not recorded; only the elapsed time printed at the end is an input;
* `os.Exit(1)` and the run-time panic of a failed type assertion end the run at once and
  are kept apart in `Outcome`.
-/

namespace Create

/-! ## Data model -/

/-- Go `[]byte`: a sequence of byte values. -/
abbrev Bytes := List Nat

/-- A Go `interface{}` value as far as `x.(string)` can tell values apart: the nil
interface, a string, or a value of some other dynamic type (described by a label). -/
inductive GoValue where
  | nil
  | str (s : String)
  | other (dynType : String)
  deriving DecidableEq, Repr

/-- A non-nil Go `map[string]interface{}`, as its key/value entries. -/
abbrev Mapping := List (String × GoValue)

/-- Go map indexing `m[key]`: the stored value, or the zero value (the nil interface)
when the key is absent. -/
def Mapping.index (m : Mapping) (key : String) : GoValue :=
  match m.lookup key with
  | some v => v
  | none => GoValue.nil

/-- The single-result type assertion `v.(string)`: `none` stands for the run-time panic
raised when the dynamic type is not `string`. -/
def GoValue.assertString : GoValue → Option String
  | GoValue.str s => some s
  | _ => none

/-- The struct `registry.Project`, with the fields the composite literals of
`runCreateCmd` fill in (`Type_` is the Go field `Type`, a reserved word here). -/
structure Project where
  Type_ : String
  Name : String
  RootFolder : String
  deriving DecidableEq, Repr

/-- Modelled from the spec: the struct `registry.CreateAnswers` is declared outside
`cmd/create.go`; its fields are the three names, the confirmation and the roles flag
that the questionnaire asks for. -/
structure CreateAnswers where
  Backend : String
  Frontend : String
  Webserver : String
  InstallAnsibleRoles : Bool
  AgreeCreation : Bool
  deriving DecidableEq, Repr

/-- Modelled from the spec: the table `registry.Repositories` is declared outside
`cmd/create.go`; an entry is a `RepositoryDescriptor { name, url }`. -/
abbrev RepositoryTable := List (String × String)

/-- Modelled from the spec: the table `registry.Commands` is declared outside
`cmd/create.go`; an entry is a `CommandDescriptor { name, argv }`. -/
abbrev CommandTable := List (String × List String)

/-- The values of the `registry` package that `runCreateCmd` reads.  They are declared
outside `cmd/create.go` and are taken as parameters. -/
structure Registry where
  CLIVersion : String
  EmbedGitIgnore : Bytes
  EmbedGitAttributes : Bytes
  EmbedEditorConfig : Bytes
  EmbedMakefile : Bytes
  EmbedDeployPlaybook : Bytes
  Repositories : RepositoryTable
  Commands : CommandTable
  RegexpBackendPattern : String
  RegexpFrontendPattern : String
  RegexpWebServerPattern : String

/-- The package-level variables of package `cmd` that `runCreateCmd` reads or assigns. -/
structure Globals where
  useConfigFile : Bool
  projectConfig : Option Mapping
  rolesConfig : Option Mapping
  createAnswers : CreateAnswers
  backend : String
  frontend : String
  webserver : String
  installAnsibleRoles : Bool
  deriving DecidableEq, Repr

/-- One external call made by `runCreateCmd`, with its arguments and with what it
returned (`none` is the nil `error`). -/
inductive Event where
  | sendMsg (startWithNewLine : Bool) (caption text color : String) (endWithNewLine : Bool)
  | ask (err : Option String) (answers : CreateAnswers)
  | getwd (dir : String) (err : Option String)
  | makeFiles (rootFolder : String) (files : List (String × Bytes)) (err : Option String)
  | createProjectFromRegistry (p : Project) (table : RepositoryTable) (pattern : String)
      (err : Option String)
  | createProjectFromCmd (p : Project) (table : CommandTable) (pattern : String)
      (err : Option String)
  deriving DecidableEq, Repr

/-- The answers of the collaborators of `runCreateCmd`.

* `ToLower` is `strings.ToLower`;
* `Ask` is `survey.Ask(registry.CreateQuestions, &createAnswers, ...)`: from the previous
  contents of `createAnswers` to the returned error and the new contents;
* `Getwd` is `os.Getwd()`;
* `MakeFiles`, `CreateProjectFromRegistry`, `CreateProjectFromCmd` are the `cgapp`
  functions, from their arguments to the returned error;
* `elapsed` is `time.Since(startTimer).String()`. -/
structure World where
  ToLower : String → String
  Ask : CreateAnswers → Option String × CreateAnswers
  Getwd : String × Option String
  MakeFiles : String → List (String × Bytes) → Option String
  CreateProjectFromRegistry : Project → RepositoryTable → String → Option String
  CreateProjectFromCmd : Project → CommandTable → String → Option String
  elapsed : String

/-- How control leaves `runCreateCmd`: by falling off its end, by `os.Exit(code)`, or by
a run-time panic. -/
inductive Outcome where
  | returned
  | exit (code : Nat)
  | panic
  deriving DecidableEq, Repr

/-- The state of a run: the package-level variables, the local `currentDir`, and the
external calls made so far, oldest first. -/
structure State where
  globals : Globals
  currentDir : String
  trace : List Event
  deriving DecidableEq, Repr

/-- The result of a run: the final state and how control left the function. -/
structure Run where
  state : State
  outcome : Outcome
  deriving DecidableEq, Repr

/-- The external calls of a run, oldest first. -/
def Run.trace (r : Run) : List Event := r.state.trace

/-- The package-level variables when the run ends. -/
def Run.globals (r : Run) : Globals := r.state.globals

/-- Record an external call. -/
def State.emit (s : State) (e : Event) : State :=
  { s with trace := s.trace ++ [e] }

/-- The error branch shared by every step: `cgapp.SendMsg(true, "[ERROR]", err.Error(),
"red", true)` followed by `os.Exit(1)`. -/
def fatal (s : State) (err : String) : Run :=
  { state := s.emit (Event.sendMsg true "[ERROR]" err "red" true), outcome := Outcome.exit 1 }

/-! ## The blocks of `runCreateCmd`, in source order

Each block takes the state it starts in and the rest of the function body `k`, which it
enters unless it leaves the function itself. -/

/-- Line 30: the start message. -/
def startMessage (reg : Registry) (s : State) (k : State → Run) : Run :=
  k (s.emit (Event.sendMsg true "* * *"
    ("Create a new project via Create Go App CLI v" ++ reg.CLIVersion ++ "...") "yellow" true))

/-- Lines 34-42: the names are read from the config mapping, one assignment after the
other, each through an unchecked `.(string)` assertion; then the `roles` check. -/
def readConfig (w : World) (projectConfig : Mapping) (s : State) (k : State → Run) : Run :=
  match (projectConfig.index "backend").assertString with
  | none => { state := s, outcome := Outcome.panic }
  | some b =>
    let s := { s with globals := { s.globals with backend := w.ToLower b } }
    match (projectConfig.index "frontend").assertString with
    | none => { state := s, outcome := Outcome.panic }
    | some f =>
      let s := { s with globals := { s.globals with frontend := w.ToLower f } }
      match (projectConfig.index "webserver").assertString with
      | none => { state := s, outcome := Outcome.panic }
      | some ws =>
        let s := { s with globals := { s.globals with webserver := w.ToLower ws } }
        if s.globals.rolesConfig ≠ none then
          k { s with globals := { s.globals with installAnsibleRoles := true } }
        else
          k s

/-- Lines 44-66: the questionnaire, the confirmation check, and the assignment of the
answers. -/
def runSurvey (w : World) (s : State) (k : State → Run) : Run :=
  let res := w.Ask s.globals.createAnswers
  let s := { s with globals := { s.globals with createAnswers := res.2 } }
  let s := s.emit (Event.ask res.1 res.2)
  match res.1 with
  | some err => fatal s err
  | none =>
    if s.globals.createAnswers.AgreeCreation = false then
      let s := s.emit (Event.sendMsg true "[!]" "You're stopped creation of a new project."
        "red" false)
      let s := s.emit (Event.sendMsg false "[!]" "Run `cgapp create` once again!" "red" true)
      { state := s, outcome := Outcome.exit 1 }
    else
      let s := s.emit (Event.sendMsg false "" "" "" false)
      k { s with globals := { s.globals with
        backend := w.ToLower s.globals.createAnswers.Backend
        frontend := w.ToLower s.globals.createAnswers.Frontend
        webserver := w.ToLower s.globals.createAnswers.Webserver
        installAnsibleRoles := s.globals.createAnswers.InstallAnsibleRoles } }

/-- Lines 33-67: the choice between the config file and the questionnaire. -/
def collect (w : World) (s : State) (k : State → Run) : Run :=
  match s.globals.useConfigFile, s.globals.projectConfig with
  | true, some projectConfig => readConfig w projectConfig s k
  | _, _ => runSurvey w s k

/-- Lines 72-77: the working directory is looked up and kept in `currentDir`. -/
def getCurrentDir (w : World) (s : State) (k : State → Run) : Run :=
  let s := { s with currentDir := w.Getwd.1 }
  let s := s.emit (Event.getwd w.Getwd.1 w.Getwd.2)
  match w.Getwd.2 with
  | some err => fatal s err
  | none => k s

/-- Lines 83-88: the map literal `filesToMake`. -/
def filesToMake (reg : Registry) : List (String × Bytes) :=
  [(".gitignore", reg.EmbedGitIgnore),
   (".gitattributes", reg.EmbedGitAttributes),
   (".editorconfig", reg.EmbedEditorConfig),
   ("Makefile", reg.EmbedMakefile)]

/-- Lines 99-101: the map literal `fileToMake`. -/
def fileToMake (reg : Registry) : List (String × Bytes) :=
  [("deploy-playbook.yml", reg.EmbedDeployPlaybook)]

/-- Lines 80-92: the configuration files. -/
def createConfigFiles (reg : Registry) (w : World) (s : State) (k : State → Run) : Run :=
  let s := s.emit (Event.sendMsg false "*" "Create config files for your project..." "cyan" true)
  match w.MakeFiles s.currentDir (filesToMake reg) with
  | some err => fatal (s.emit (Event.makeFiles s.currentDir (filesToMake reg) (some err))) err
  | none => k (s.emit (Event.makeFiles s.currentDir (filesToMake reg) none))

/-- Lines 95-106: the Ansible playbook, if not skipped. -/
def createPlaybook (reg : Registry) (w : World) (s : State) (k : State → Run) : Run :=
  if s.globals.installAnsibleRoles = true then
    let s := s.emit (Event.sendMsg true "*" "Create Ansible playbook with tasks..." "cyan" true)
    match w.MakeFiles s.currentDir (fileToMake reg) with
    | some err => fatal (s.emit (Event.makeFiles s.currentDir (fileToMake reg) (some err))) err
    | none => k (s.emit (Event.makeFiles s.currentDir (fileToMake reg) none))
  else
    k s

/-- Lines 109-121: the backend. -/
def createBackend (reg : Registry) (w : World) (s : State) (k : State → Run) : Run :=
  let s := s.emit (Event.sendMsg true "*" "Create project backend..." "cyan" true)
  let p : Project := { Type_ := "backend", Name := s.globals.backend, RootFolder := s.currentDir }
  match w.CreateProjectFromRegistry p reg.Repositories reg.RegexpBackendPattern with
  | some err =>
    fatal (s.emit (Event.createProjectFromRegistry p reg.Repositories reg.RegexpBackendPattern
      (some err))) err
  | none =>
    k (s.emit (Event.createProjectFromRegistry p reg.Repositories reg.RegexpBackendPattern none))

/-- Lines 123-138: the frontend, unless its name is `none`. -/
def createFrontend (reg : Registry) (w : World) (s : State) (k : State → Run) : Run :=
  if s.globals.frontend ≠ "none" then
    let s := s.emit (Event.sendMsg true "*" "Create project frontend..." "cyan" false)
    let p : Project :=
      { Type_ := "frontend", Name := s.globals.frontend, RootFolder := s.currentDir }
    match w.CreateProjectFromCmd p reg.Commands reg.RegexpFrontendPattern with
    | some err =>
      fatal (s.emit (Event.createProjectFromCmd p reg.Commands reg.RegexpFrontendPattern
        (some err))) err
    | none =>
      k (s.emit (Event.createProjectFromCmd p reg.Commands reg.RegexpFrontendPattern none))
  else
    k s

/-- Lines 146-159: the body of the inner `if webserver != "none"`. -/
def createWebserver (reg : Registry) (w : World) (s : State) (k : State → Run) : Run :=
  let s := s.emit (Event.sendMsg true "*" "Create container with web/proxy server..." "cyan" true)
  let p : Project :=
    { Type_ := "webserver", Name := s.globals.webserver, RootFolder := s.currentDir }
  match w.CreateProjectFromRegistry p reg.Repositories reg.RegexpWebServerPattern with
  | some err =>
    fatal (s.emit (Event.createProjectFromRegistry p reg.Repositories
      reg.RegexpWebServerPattern (some err))) err
  | none =>
    k (s.emit (Event.createProjectFromRegistry p reg.Repositories reg.RegexpWebServerPattern
      none))

/-- Lines 141-161: the Docker containers block, with its two nested tests of
`webserver != "none"`. -/
def dockerContainers (reg : Registry) (w : World) (s : State) (k : State → Run) : Run :=
  if s.globals.webserver ≠ "none" then
    let s := s.emit (Event.sendMsg true "* * *" "Configuring Docker containers..." "yellow" false)
    if s.globals.webserver ≠ "none" then
      createWebserver reg w s k
    else
      k s
  else
    k s

/-- Lines 164-169: the end messages; the function then returns. -/
def endMessages (w : World) (s : State) : Run :=
  let s := s.emit (Event.sendMsg true "* * *" ("Completed in " ++ w.elapsed ++ "!") "yellow" true)
  let s := s.emit (Event.sendMsg false "(i)"
    "A helpful documentation and next steps -> https://create-go.app/" "green" false)
  let s := s.emit (Event.sendMsg false "(i)"
    "Run `cgapp deploy` to deploy your project to a remote server or run on localhost."
    "green" true)
  { state := s, outcome := Outcome.returned }

/-- The state in which `runCreateCmd` is entered. -/
def State.initial (g : Globals) : State :=
  { globals := g, currentDir := "", trace := [] }

/-- The runner of the `create` command (lines 28-170). -/
def runCreateCmd (reg : Registry) (w : World) (g : Globals) : Run :=
  startMessage reg (State.initial g) fun s =>
  collect w s fun s =>
  getCurrentDir w s fun s =>
  createConfigFiles reg w s fun s =>
  createPlaybook reg w s fun s =>
  createBackend reg w s fun s =>
  createFrontend reg w s fun s =>
  dockerContainers reg w s fun s =>
  endMessages w s


/-! ## Suffixes of the function body -/

/-- Lines 140-170: what remains to run after the frontend block. -/
def afterFrontend (reg : Registry) (w : World) (s : State) : Run :=
  dockerContainers reg w s fun s => endMessages w s

/-- Lines 123-170: what remains to run after the backend block. -/
def afterBackend (reg : Registry) (w : World) (s : State) : Run :=
  createFrontend reg w s (afterFrontend reg w)

/-- Lines 108-170: what remains to run after the playbook block. -/
def afterPlaybook (reg : Registry) (w : World) (s : State) : Run :=
  createBackend reg w s (afterBackend reg w)

/-- Lines 94-170: what remains to run after the configuration files. -/
def afterConfigFiles (reg : Registry) (w : World) (s : State) : Run :=
  createPlaybook reg w s (afterPlaybook reg w)

/-- Lines 79-170: what remains to run after the working-directory lookup. -/
def afterGetwd (reg : Registry) (w : World) (s : State) : Run :=
  createConfigFiles reg w s (afterConfigFiles reg w)

/-- Lines 69-170: what remains to run once the names are collected. -/
def pipeline (reg : Registry) (w : World) (s : State) : Run :=
  getCurrentDir w s (afterGetwd reg w)

/-! ## Steps of a trace -/

/-- An external call other than a progress message: a step of the pipeline. -/
def Event.isStep : Event → Bool
  | Event.sendMsg _ _ _ _ _ => false
  | _ => true

/-- The call returned a non-nil error. -/
def Event.failed : Event → Bool
  | Event.sendMsg _ _ _ _ _ => false
  | Event.ask err _ => err.isSome
  | Event.getwd _ err => err.isSome
  | Event.makeFiles _ _ err => err.isSome
  | Event.createProjectFromRegistry _ _ _ err => err.isSome
  | Event.createProjectFromCmd _ _ _ err => err.isSome

/-- The steps of a trace, in order. -/
def stepsOf (t : List Event) : List Event := t.filter Event.isStep

/-- A list of calls cut after its first failed call. -/
def untilFailure : List Event → List Event
  | [] => []
  | e :: rest => if e.failed then [e] else e :: untilFailure rest

/-- The `os.Getwd` call of a run. -/
def getwdCall (w : World) : Event := Event.getwd w.Getwd.1 w.Getwd.2

/-- The config-file write into directory `d`. -/
def configCall (reg : Registry) (w : World) (d : String) : Event :=
  Event.makeFiles d (filesToMake reg) (w.MakeFiles d (filesToMake reg))

/-- The playbook write into directory `d`. -/
def playbookCall (reg : Registry) (w : World) (d : String) : Event :=
  Event.makeFiles d (fileToMake reg) (w.MakeFiles d (fileToMake reg))

/-- The backend materialization for the variables `g` in directory `d`. -/
def backendCall (reg : Registry) (w : World) (g : Globals) (d : String) : Event :=
  Event.createProjectFromRegistry ⟨"backend", g.backend, d⟩ reg.Repositories
    reg.RegexpBackendPattern
    (w.CreateProjectFromRegistry ⟨"backend", g.backend, d⟩ reg.Repositories
      reg.RegexpBackendPattern)

/-- The frontend generator call for the variables `g` in directory `d`. -/
def frontendCall (reg : Registry) (w : World) (g : Globals) (d : String) : Event :=
  Event.createProjectFromCmd ⟨"frontend", g.frontend, d⟩ reg.Commands
    reg.RegexpFrontendPattern
    (w.CreateProjectFromCmd ⟨"frontend", g.frontend, d⟩ reg.Commands reg.RegexpFrontendPattern)

/-- The webserver materialization for the variables `g` in directory `d`. -/
def webserverCall (reg : Registry) (w : World) (g : Globals) (d : String) : Event :=
  Event.createProjectFromRegistry ⟨"webserver", g.webserver, d⟩ reg.Repositories
    reg.RegexpWebServerPattern
    (w.CreateProjectFromRegistry ⟨"webserver", g.webserver, d⟩ reg.Repositories
      reg.RegexpWebServerPattern)

/-- The calls the function body attempts from the frontend block on. -/
def callsAfterBackend (reg : Registry) (w : World) (g : Globals) (d : String) : List Event :=
  (if g.frontend ≠ "none" then [frontendCall reg w g d] else [])
    ++ (if g.webserver ≠ "none" then [webserverCall reg w g d] else [])

/-- The calls the function body attempts from the config-file write on. -/
def callsAfterGetwd (reg : Registry) (w : World) (g : Globals) (d : String) : List Event :=
  configCall reg w d ::
    ((if g.installAnsibleRoles = true then [playbookCall reg w d] else [])
      ++ backendCall reg w g d :: callsAfterBackend reg w g d)

/-- The calls the function body attempts once the names are collected. -/
def plannedCalls (reg : Registry) (w : World) (g : Globals) : List Event :=
  getwdCall w :: callsAfterGetwd reg w g w.Getwd.1

/-- The run `r`, entered with variables `g` and trace `t`, made the calls `calls` up to the
first failure, left the variables alone, and exited with code 1 exactly when a call
failed. -/
def Performs (r : Run) (g : Globals) (t : List Event) (calls : List Event) : Prop :=
  stepsOf r.trace = stepsOf t ++ untilFailure calls ∧ r.globals = g ∧
    r.outcome = if calls.any Event.failed then Outcome.exit 1 else Outcome.returned


/-! ## Variables after collection -/

/-- The start message. -/
def banner (reg : Registry) : Event :=
  Event.sendMsg true "* * *"
    ("Create a new project via Create Go App CLI v" ++ reg.CLIVersion ++ "...") "yellow" true

/-- The variables after the three names `B`, `F`, `W` were read from the config mapping. -/
def configGlobals (w : World) (g : Globals) (B F W : String) : Globals :=
  { g with backend := w.ToLower B, frontend := w.ToLower F, webserver := w.ToLower W,
           installAnsibleRoles := if g.rolesConfig ≠ none then true else g.installAnsibleRoles }

/-- The variables after a confirmed questionnaire. -/
def surveyGlobals (w : World) (g : Globals) : Globals :=
  { g with createAnswers := (w.Ask g.createAnswers).2,
           backend := w.ToLower (w.Ask g.createAnswers).2.Backend,
           frontend := w.ToLower (w.Ask g.createAnswers).2.Frontend,
           webserver := w.ToLower (w.Ask g.createAnswers).2.Webserver,
           installAnsibleRoles := (w.Ask g.createAnswers).2.InstallAnsibleRoles }


/-! ## Observations on a trace -/

/-- The frontend generator step: a call of `cgapp.CreateProjectFromCmd`. -/
def Event.isGenerator : Event → Bool
  | Event.createProjectFromCmd _ _ _ _ => true
  | _ => false

/-- A call of `cgapp.CreateProjectFromRegistry` for a project of the given `Type`. -/
def Event.isMaterialization (kind : String) : Event → Bool
  | Event.createProjectFromRegistry p _ _ _ => decide (p.Type_ = kind)
  | _ => false

/-- A call of `cgapp.MakeFiles`. -/
def Event.isFileWrite : Event → Bool
  | Event.makeFiles _ _ _ => true
  | _ => false

/-- A call of `cgapp.CreateProjectFromRegistry`: a template clone. -/
def Event.isClone : Event → Bool
  | Event.createProjectFromRegistry _ _ _ _ => true
  | _ => false

/-- A call of `os.Getwd`. -/
def Event.isGetwd : Event → Bool
  | Event.getwd _ _ => true
  | _ => false

/-- The `Type` and `Name` of the project of every materialization call of a trace, in
order. -/
def passedNames (t : List Event) : List (String × String) :=
  t.filterMap fun e =>
    match e with
    | Event.createProjectFromRegistry p _ _ _ => some (p.Type_, p.Name)
    | Event.createProjectFromCmd p _ _ _ => some (p.Type_, p.Name)
    | _ => none

/-! ## Sample inputs -/

/-- A lowercasing function that agrees with `strings.ToLower` on ASCII strings. -/
def asciiLower (s : String) : String := String.mk (s.data.map Char.toLower)

/-- A registry with one entry per table. -/
def sampleRegistry : Registry :=
  { CLIVersion := "2.0.0", EmbedGitIgnore := [1], EmbedGitAttributes := [2],
    EmbedEditorConfig := [3], EmbedMakefile := [4], EmbedDeployPlaybook := [5],
    Repositories := [("fiber", "github.com/create-go-app/fiber-go-template")],
    Commands := [("react", ["npx", "create-react-app"])],
    RegexpBackendPattern := "^(net/http|fiber|echo)$",
    RegexpFrontendPattern := "^(react|vue|none)$",
    RegexpWebServerPattern := "^(nginx|none)$" }

/-- The questionnaire answers `Echo`, `React`, `Nginx`, confirmed, with roles. -/
def fullAnswers : CreateAnswers :=
  { Backend := "Echo", Frontend := "React", Webserver := "Nginx",
    InstallAnsibleRoles := true, AgreeCreation := true }

/-- A world in which the user gives `fullAnswers` and every call succeeds. -/
def happyWorld : World :=
  { ToLower := asciiLower,
    Ask := fun _ => (none, fullAnswers),
    Getwd := ("/work", none),
    MakeFiles := fun _ _ => none,
    CreateProjectFromRegistry := fun _ _ _ => none,
    CreateProjectFromCmd := fun _ _ _ => none,
    elapsed := "1s" }

/-- The variables of a process started without `--use-config`. -/
def interactiveGlobals : Globals :=
  { useConfigFile := false, projectConfig := none, rolesConfig := none,
    createAnswers := ⟨"", "", "", false, false⟩,
    backend := "", frontend := "", webserver := "", installAnsibleRoles := false }

/-- The config mapping `{backend: Fiber, frontend: React, webserver: Nginx}`. -/
def fullConfig : Mapping :=
  [("backend", GoValue.str "Fiber"), ("frontend", GoValue.str "React"),
   ("webserver", GoValue.str "Nginx")]

/-- The variables of a process started with `--use-config` on `fullConfig` and a `roles`
section. -/
def configuredGlobals : Globals :=
  { interactiveGlobals with
    useConfigFile := true, projectConfig := some fullConfig,
    rolesConfig := some [("deploy", GoValue.other "map")] }

/-- The variables of a process on the config path whose `installAnsibleRoles` variable
already holds `true` on entry while the configuration has no `roles` section. -/
def staleRolesGlobals : Globals :=
  { interactiveGlobals with
    useConfigFile := true, projectConfig := some fullConfig, rolesConfig := none,
    installAnsibleRoles := true }

/-- A world in which the user answers the questionnaire but declines the confirmation. -/
def decliningWorld : World :=
  { happyWorld with Ask := fun _ => (none, { fullAnswers with AgreeCreation := false }) }

/-- The variables of a process started with `--use-config` on a config file whose project
section has no `backend` key. -/
def missingBackendGlobals : Globals :=
  { interactiveGlobals with
    useConfigFile := true,
    projectConfig := some [("frontend", GoValue.str "none"), ("webserver", GoValue.str "none")] }

/-- The variables of a process started with `--use-config` on a config file whose
`frontend` key holds a number. -/
def numericFrontendGlobals : Globals :=
  { interactiveGlobals with
    useConfigFile := true,
    projectConfig := some [("backend", GoValue.str "fiber"), ("frontend", GoValue.other "int"),
      ("webserver", GoValue.str "none")] }

/-- The calls the function body attempts between the collection of the names and the
backend block. -/
def callsBeforeBackend (reg : Registry) (w : World) (g : Globals) : List Event :=
  getwdCall w :: configCall reg w w.Getwd.1 ::
    (if g.installAnsibleRoles = true then [playbookCall reg w w.Getwd.1] else [])

/-- The calls a run makes from the backend block on, once that block is reached. -/
def stepsFromBackend (reg : Registry) (w : World) (g : Globals) : List Event :=
  if (backendCall reg w g w.Getwd.1).failed = true then [backendCall reg w g w.Getwd.1]
  else backendCall reg w g w.Getwd.1 :: untilFailure (callsAfterBackend reg w g w.Getwd.1)

/-- A world like `happyWorld` in which the frontend generator fails. -/
def brokenGeneratorWorld : World :=
  { happyWorld with CreateProjectFromCmd := fun _ _ _ => some "exit status 1" }

/-- The questionnaire answers `Echo`, `None`, `NONE`, confirmed, without roles. -/
def backendOnlyAnswers : CreateAnswers :=
  { Backend := "Echo", Frontend := "None", Webserver := "NONE",
    InstallAnsibleRoles := false, AgreeCreation := true }

/-- A world in which the user gives `backendOnlyAnswers` and every call succeeds. -/
def backendOnlyWorld : World :=
  { happyWorld with Ask := fun _ => (none, backendOnlyAnswers) }

/-! ## Phases of the emission order -/

/-- The five effects whose order the pipeline fixes. -/
inductive Phase where
  | configFiles
  | playbook
  | backend
  | frontend
  | webserver
  deriving DecidableEq, Repr

/-- The phase an external call belongs to: a `MakeFiles` call is told apart by the names
of the files it is given, a `CreateProjectFromRegistry` call by the `Type` of its project;
every `CreateProjectFromCmd` call is the frontend generator. -/
def Event.phase : Event → Option Phase
  | Event.makeFiles _ files _ =>
    if files.map Prod.fst = [".gitignore", ".gitattributes", ".editorconfig", "Makefile"] then
      some Phase.configFiles
    else if files.map Prod.fst = ["deploy-playbook.yml"] then some Phase.playbook
    else none
  | Event.createProjectFromRegistry p _ _ _ =>
    if p.Type_ = "backend" then some Phase.backend
    else if p.Type_ = "webserver" then some Phase.webserver
    else none
  | Event.createProjectFromCmd _ _ _ _ => some Phase.frontend
  | _ => none

/-- The phases of a trace, in the order in which they occur. -/
def phasesOf (t : List Event) : List Phase := t.filterMap Event.phase

/-- The files handed to the `MakeFiles` calls of a trace that returned without error, with
their contents, in the order of the calls. -/
def emittedFiles (t : List Event) : List (String × Bytes) :=
  t.flatMap fun e =>
    match e with
    | Event.makeFiles _ files none => files
    | _ => []

/-- The working-directory lookup and the calls that are handed a directory, in order. -/
def directoryCalls (t : List Event) : List Event :=
  t.filter fun e => e.isGetwd || e.isFileWrite || e.isClone || e.isGenerator

/-- The Docker containers block with a single test of `webserver != "none"`, as the design
notes ask for: the two progress messages and the materialization under one condition. -/
def dockerContainersFlat (reg : Registry) (w : World) (s : State) (k : State → Run) : Run :=
  if s.globals.webserver ≠ "none" then
    createWebserver reg w
      (s.emit (Event.sendMsg true "* * *" "Configuring Docker containers..." "yellow" false)) k
  else
    k s

/-- The config mapping `{backend: Fiber, frontend: None, webserver: NONE}`. -/
def shoutingConfig : Mapping :=
  [("backend", GoValue.str "Fiber"), ("frontend", GoValue.str "None"),
   ("webserver", GoValue.str "NONE")]

/-- The variables of a process started with `--use-config` on `shoutingConfig`. -/
def shoutingGlobals : Globals :=
  { interactiveGlobals with useConfigFile := true, projectConfig := some shoutingConfig }

/-! # Theorems -/

/-! ## The blocks on an explicit state -/

theorem emit_mk (g : Globals) (d : String) (t : List Event) (e : Event) :
    State.emit ⟨g, d, t⟩ e = ⟨g, d, t ++ [e]⟩ := rfl

theorem fatal_mk (g : Globals) (d : String) (t : List Event) (err : String) :
    fatal ⟨g, d, t⟩ err
      = ⟨⟨g, d, t ++ [Event.sendMsg true "[ERROR]" err "red" true]⟩, Outcome.exit 1⟩ := rfl

theorem startMessage_mk (reg : Registry) (g : Globals) (d : String) (t : List Event)
    (k : State → Run) :
    startMessage reg ⟨g, d, t⟩ k
      = k ⟨g, d, t ++ [Event.sendMsg true "* * *"
          ("Create a new project via Create Go App CLI v" ++ reg.CLIVersion ++ "...")
          "yellow" true]⟩ := rfl

theorem readConfig_mk (w : World) (m : Mapping) (g : Globals) (d : String) (t : List Event)
    (k : State → Run) :
    readConfig w m ⟨g, d, t⟩ k =
      match (m.index "backend").assertString with
      | none => ⟨⟨g, d, t⟩, Outcome.panic⟩
      | some b =>
        match (m.index "frontend").assertString with
        | none => ⟨⟨{ g with backend := w.ToLower b }, d, t⟩, Outcome.panic⟩
        | some f =>
          match (m.index "webserver").assertString with
          | none =>
            ⟨⟨{ g with backend := w.ToLower b, frontend := w.ToLower f }, d, t⟩, Outcome.panic⟩
          | some ws =>
            if g.rolesConfig ≠ none then
              k ⟨{ g with backend := w.ToLower b, frontend := w.ToLower f,
                          webserver := w.ToLower ws, installAnsibleRoles := true }, d, t⟩
            else
              k ⟨{ g with backend := w.ToLower b, frontend := w.ToLower f,
                          webserver := w.ToLower ws }, d, t⟩ := rfl

theorem runSurvey_mk (w : World) (g : Globals) (d : String) (t : List Event)
    (k : State → Run) :
    runSurvey w ⟨g, d, t⟩ k =
      match (w.Ask g.createAnswers).1 with
      | some err =>
        ⟨⟨{ g with createAnswers := (w.Ask g.createAnswers).2 }, d,
          t ++ [Event.ask (w.Ask g.createAnswers).1 (w.Ask g.createAnswers).2,
                Event.sendMsg true "[ERROR]" err "red" true]⟩, Outcome.exit 1⟩
      | none =>
        if (w.Ask g.createAnswers).2.AgreeCreation = false then
          ⟨⟨{ g with createAnswers := (w.Ask g.createAnswers).2 }, d,
            t ++ [Event.ask (w.Ask g.createAnswers).1 (w.Ask g.createAnswers).2,
                  Event.sendMsg true "[!]" "You're stopped creation of a new project." "red" false,
                  Event.sendMsg false "[!]" "Run `cgapp create` once again!" "red" true]⟩,
            Outcome.exit 1⟩
        else
          k ⟨{ g with createAnswers := (w.Ask g.createAnswers).2,
                      backend := w.ToLower (w.Ask g.createAnswers).2.Backend,
                      frontend := w.ToLower (w.Ask g.createAnswers).2.Frontend,
                      webserver := w.ToLower (w.Ask g.createAnswers).2.Webserver,
                      installAnsibleRoles := (w.Ask g.createAnswers).2.InstallAnsibleRoles }, d,
            t ++ [Event.ask (w.Ask g.createAnswers).1 (w.Ask g.createAnswers).2,
                  Event.sendMsg false "" "" "" false]⟩ := by
  simp only [runSurvey, emit_mk, fatal_mk, List.append_assoc, List.cons_append, List.nil_append]

theorem getCurrentDir_mk (w : World) (g : Globals) (d : String) (t : List Event)
    (k : State → Run) :
    getCurrentDir w ⟨g, d, t⟩ k =
      match w.Getwd.2 with
      | some err =>
        ⟨⟨g, w.Getwd.1, t ++ [Event.getwd w.Getwd.1 w.Getwd.2,
          Event.sendMsg true "[ERROR]" err "red" true]⟩, Outcome.exit 1⟩
      | none => k ⟨g, w.Getwd.1, t ++ [Event.getwd w.Getwd.1 w.Getwd.2]⟩ := by
  simp only [getCurrentDir, emit_mk, fatal_mk, List.append_assoc, List.cons_append,
    List.nil_append]

theorem createConfigFiles_mk (reg : Registry) (w : World) (g : Globals) (d : String)
    (t : List Event) (k : State → Run) :
    createConfigFiles reg w ⟨g, d, t⟩ k =
      match w.MakeFiles d (filesToMake reg) with
      | some err =>
        ⟨⟨g, d, t ++ [Event.sendMsg false "*" "Create config files for your project..." "cyan" true,
          Event.makeFiles d (filesToMake reg) (some err),
          Event.sendMsg true "[ERROR]" err "red" true]⟩, Outcome.exit 1⟩
      | none =>
        k ⟨g, d, t ++ [Event.sendMsg false "*" "Create config files for your project..." "cyan" true,
          Event.makeFiles d (filesToMake reg) none]⟩ := by
  simp only [createConfigFiles, emit_mk, fatal_mk, List.append_assoc, List.cons_append,
    List.nil_append]

theorem createPlaybook_mk (reg : Registry) (w : World) (g : Globals) (d : String)
    (t : List Event) (k : State → Run) :
    createPlaybook reg w ⟨g, d, t⟩ k =
      if g.installAnsibleRoles = true then
        match w.MakeFiles d (fileToMake reg) with
        | some err =>
          ⟨⟨g, d, t ++ [Event.sendMsg true "*" "Create Ansible playbook with tasks..." "cyan" true,
            Event.makeFiles d (fileToMake reg) (some err),
            Event.sendMsg true "[ERROR]" err "red" true]⟩, Outcome.exit 1⟩
        | none =>
          k ⟨g, d, t ++ [Event.sendMsg true "*" "Create Ansible playbook with tasks..." "cyan" true,
            Event.makeFiles d (fileToMake reg) none]⟩
      else k ⟨g, d, t⟩ := by
  simp only [createPlaybook, emit_mk, fatal_mk, List.append_assoc, List.cons_append,
    List.nil_append]

theorem createBackend_mk (reg : Registry) (w : World) (g : Globals) (d : String)
    (t : List Event) (k : State → Run) :
    createBackend reg w ⟨g, d, t⟩ k =
      match w.CreateProjectFromRegistry ⟨"backend", g.backend, d⟩ reg.Repositories
          reg.RegexpBackendPattern with
      | some err =>
        ⟨⟨g, d, t ++ [Event.sendMsg true "*" "Create project backend..." "cyan" true,
          Event.createProjectFromRegistry ⟨"backend", g.backend, d⟩ reg.Repositories
            reg.RegexpBackendPattern (some err),
          Event.sendMsg true "[ERROR]" err "red" true]⟩, Outcome.exit 1⟩
      | none =>
        k ⟨g, d, t ++ [Event.sendMsg true "*" "Create project backend..." "cyan" true,
          Event.createProjectFromRegistry ⟨"backend", g.backend, d⟩ reg.Repositories
            reg.RegexpBackendPattern none]⟩ := by
  simp only [createBackend, emit_mk, fatal_mk, List.append_assoc, List.cons_append,
    List.nil_append]

theorem createFrontend_mk (reg : Registry) (w : World) (g : Globals) (d : String)
    (t : List Event) (k : State → Run) :
    createFrontend reg w ⟨g, d, t⟩ k =
      if g.frontend ≠ "none" then
        match w.CreateProjectFromCmd ⟨"frontend", g.frontend, d⟩ reg.Commands
            reg.RegexpFrontendPattern with
        | some err =>
          ⟨⟨g, d, t ++ [Event.sendMsg true "*" "Create project frontend..." "cyan" false,
            Event.createProjectFromCmd ⟨"frontend", g.frontend, d⟩ reg.Commands
              reg.RegexpFrontendPattern (some err),
            Event.sendMsg true "[ERROR]" err "red" true]⟩, Outcome.exit 1⟩
        | none =>
          k ⟨g, d, t ++ [Event.sendMsg true "*" "Create project frontend..." "cyan" false,
            Event.createProjectFromCmd ⟨"frontend", g.frontend, d⟩ reg.Commands
              reg.RegexpFrontendPattern none]⟩
      else k ⟨g, d, t⟩ := by
  simp only [createFrontend, emit_mk, fatal_mk, List.append_assoc, List.cons_append,
    List.nil_append]

theorem createWebserver_mk (reg : Registry) (w : World) (g : Globals) (d : String)
    (t : List Event) (k : State → Run) :
    createWebserver reg w ⟨g, d, t⟩ k =
      match w.CreateProjectFromRegistry ⟨"webserver", g.webserver, d⟩ reg.Repositories
          reg.RegexpWebServerPattern with
      | some err =>
        ⟨⟨g, d, t ++ [Event.sendMsg true "*" "Create container with web/proxy server..." "cyan" true,
          Event.createProjectFromRegistry ⟨"webserver", g.webserver, d⟩ reg.Repositories
            reg.RegexpWebServerPattern (some err),
          Event.sendMsg true "[ERROR]" err "red" true]⟩, Outcome.exit 1⟩
      | none =>
        k ⟨g, d, t ++ [Event.sendMsg true "*" "Create container with web/proxy server..." "cyan" true,
          Event.createProjectFromRegistry ⟨"webserver", g.webserver, d⟩ reg.Repositories
            reg.RegexpWebServerPattern none]⟩ := by
  simp only [createWebserver, emit_mk, fatal_mk, List.append_assoc, List.cons_append,
    List.nil_append]

theorem dockerContainers_mk (reg : Registry) (w : World) (g : Globals) (d : String)
    (t : List Event) (k : State → Run) :
    dockerContainers reg w ⟨g, d, t⟩ k =
      if g.webserver ≠ "none" then
        createWebserver reg w ⟨g, d, t ++ [Event.sendMsg true "* * *"
          "Configuring Docker containers..." "yellow" false]⟩ k
      else k ⟨g, d, t⟩ := by
  simp only [dockerContainers, emit_mk]
  split <;> rfl

theorem endMessages_mk (w : World) (g : Globals) (d : String) (t : List Event) :
    endMessages w ⟨g, d, t⟩ =
      ⟨⟨g, d, t ++ [Event.sendMsg true "* * *" ("Completed in " ++ w.elapsed ++ "!") "yellow" true,
        Event.sendMsg false "(i)"
          "A helpful documentation and next steps -> https://create-go.app/" "green" false,
        Event.sendMsg false "(i)"
          "Run `cgapp deploy` to deploy your project to a remote server or run on localhost."
          "green" true]⟩, Outcome.returned⟩ := by
  simp only [endMessages, emit_mk, List.append_assoc, List.cons_append, List.nil_append]

theorem runCreateCmd_eq (reg : Registry) (w : World) (g : Globals) :
    runCreateCmd reg w g
      = collect w ⟨g, "", [Event.sendMsg true "* * *"
          ("Create a new project via Create Go App CLI v" ++ reg.CLIVersion ++ "...")
          "yellow" true]⟩ (pipeline reg w) := rfl

theorem stepsOf_append (a b : List Event) : stepsOf (a ++ b) = stepsOf a ++ stepsOf b := by
  simp [stepsOf]

theorem stepsOf_cons_sendMsg (b : Bool) (c x y : String) (e : Bool) (t : List Event) :
    stepsOf (Event.sendMsg b c x y e :: t) = stepsOf t := by
  simp [stepsOf, Event.isStep]

theorem stepsOf_nil : stepsOf [] = [] := rfl

theorem afterFrontend_performs (reg : Registry) (w : World) (g : Globals) (d : String)
    (t : List Event) :
    Performs (afterFrontend reg w ⟨g, d, t⟩) g t
      (if g.webserver ≠ "none" then [webserverCall reg w g d] else []) := by
  unfold afterFrontend
  rw [dockerContainers_mk]
  split
  · rw [createWebserver_mk]
    split <;> rename_i h <;>
      simp [Performs, Run.trace, Run.globals, endMessages_mk, stepsOf_append, stepsOf_cons_sendMsg,
        stepsOf, Event.isStep, webserverCall, h, untilFailure, Event.failed]
  · simp [Performs, Run.trace, Run.globals, endMessages_mk, stepsOf_append, stepsOf_cons_sendMsg,
        stepsOf, Event.isStep, untilFailure]

theorem Performs.of_ok {r : Run} {g : Globals} {t t' : List Event} {e : Event}
    {calls : List Event} (ht : stepsOf t' = stepsOf t ++ [e]) (hf : e.failed = false)
    (h : Performs r g t' calls) : Performs r g t (e :: calls) := by
  obtain ⟨h1, h2, h3⟩ := h
  refine ⟨?_, h2, ?_⟩
  · rw [h1, ht]; simp [untilFailure, hf]
  · rw [h3]; simp [hf]

theorem Performs.of_fail {g : Globals} {d : String} {t t' : List Event} {e : Event}
    (calls : List Event) (ht : stepsOf t' = stepsOf t ++ [e]) (hf : e.failed = true) :
    Performs ⟨⟨g, d, t'⟩, Outcome.exit 1⟩ g t (e :: calls) := by
  refine ⟨?_, rfl, ?_⟩
  · simp [Run.trace, ht, untilFailure, hf]
  · simp [hf]

theorem afterBackend_performs (reg : Registry) (w : World) (g : Globals) (d : String)
    (t : List Event) :
    Performs (afterBackend reg w ⟨g, d, t⟩) g t (callsAfterBackend reg w g d) := by
  unfold afterBackend callsAfterBackend
  rw [createFrontend_mk]
  split
  · rw [List.singleton_append]
    split <;> rename_i h
    · exact Performs.of_fail _ (by simp [stepsOf, Event.isStep, frontendCall, h])
        (by simp [Event.failed, frontendCall, h])
    · exact Performs.of_ok (by simp [stepsOf, Event.isStep, frontendCall, h])
        (by simp [Event.failed, frontendCall, h]) (afterFrontend_performs reg w g d _)
  · exact afterFrontend_performs reg w g d t

theorem afterPlaybook_performs (reg : Registry) (w : World) (g : Globals) (d : String)
    (t : List Event) :
    Performs (afterPlaybook reg w ⟨g, d, t⟩) g t
      (backendCall reg w g d :: callsAfterBackend reg w g d) := by
  unfold afterPlaybook
  rw [createBackend_mk]
  split <;> rename_i h
  · exact Performs.of_fail _ (by simp [stepsOf, Event.isStep, backendCall, h])
      (by simp [Event.failed, backendCall, h])
  · exact Performs.of_ok (by simp [stepsOf, Event.isStep, backendCall, h])
      (by simp [Event.failed, backendCall, h]) (afterBackend_performs reg w g d _)

theorem afterConfigFiles_performs (reg : Registry) (w : World) (g : Globals) (d : String)
    (t : List Event) :
    Performs (afterConfigFiles reg w ⟨g, d, t⟩) g t
      ((if g.installAnsibleRoles = true then [playbookCall reg w d] else [])
        ++ backendCall reg w g d :: callsAfterBackend reg w g d) := by
  unfold afterConfigFiles
  rw [createPlaybook_mk]
  split
  · rw [List.singleton_append]
    split <;> rename_i h
    · exact Performs.of_fail _ (by simp [stepsOf, Event.isStep, playbookCall, h])
        (by simp [Event.failed, playbookCall, h])
    · exact Performs.of_ok (by simp [stepsOf, Event.isStep, playbookCall, h])
        (by simp [Event.failed, playbookCall, h]) (afterPlaybook_performs reg w g d _)
  · exact afterPlaybook_performs reg w g d t

theorem afterGetwd_performs (reg : Registry) (w : World) (g : Globals) (d : String)
    (t : List Event) :
    Performs (afterGetwd reg w ⟨g, d, t⟩) g t (callsAfterGetwd reg w g d) := by
  unfold afterGetwd callsAfterGetwd
  rw [createConfigFiles_mk]
  split <;> rename_i h
  · exact Performs.of_fail _ (by simp [stepsOf, Event.isStep, configCall, h])
      (by simp [Event.failed, configCall, h])
  · exact Performs.of_ok (by simp [stepsOf, Event.isStep, configCall, h])
      (by simp [Event.failed, configCall, h]) (afterConfigFiles_performs reg w g d _)

theorem pipeline_performs (reg : Registry) (w : World) (g : Globals) (d : String)
    (t : List Event) :
    Performs (pipeline reg w ⟨g, d, t⟩) g t (plannedCalls reg w g) := by
  unfold pipeline plannedCalls
  rw [getCurrentDir_mk]
  split <;> rename_i h
  · exact Performs.of_fail _ (by simp [stepsOf, Event.isStep, getwdCall, h])
      (by simp [Event.failed, getwdCall, h])
  · exact Performs.of_ok (by simp [stepsOf, Event.isStep, getwdCall, h])
      (by simp [Event.failed, getwdCall, h]) (afterGetwd_performs reg w g _ _)

/-! ## Collection -/

theorem collect_config (w : World) (g : Globals) (d : String) (t : List Event)
    (k : State → Run) (m : Mapping) (hU : g.useConfigFile = true)
    (hP : g.projectConfig = some m) :
    collect w ⟨g, d, t⟩ k = readConfig w m ⟨g, d, t⟩ k := by
  simp only [collect, hU, hP]

theorem collect_survey (w : World) (g : Globals) (d : String) (t : List Event)
    (k : State → Run) (hS : g.useConfigFile = false ∨ g.projectConfig = none) :
    collect w ⟨g, d, t⟩ k = runSurvey w ⟨g, d, t⟩ k := by
  unfold collect
  rcases hS with h | h
  · simp only [h]
  · simp only [h]
    split
    · rename_i h'; cases h'
    · rfl

theorem assertString_eq_some (v : GoValue) (s : String) :
    v.assertString = some s ↔ v = GoValue.str s := by
  cases v <;> simp [GoValue.assertString]

theorem run_config_ok (reg : Registry) (w : World) (g : Globals) (m : Mapping)
    (B F W : String) (hU : g.useConfigFile = true) (hP : g.projectConfig = some m)
    (hB : m.index "backend" = GoValue.str B) (hF : m.index "frontend" = GoValue.str F)
    (hW : m.index "webserver" = GoValue.str W) :
    Performs (runCreateCmd reg w g) (configGlobals w g B F W) [banner reg]
      (plannedCalls reg w (configGlobals w g B F W)) := by
  rw [runCreateCmd_eq, collect_config w g _ _ _ m hU hP, readConfig_mk]
  simp only [hB, hF, hW, GoValue.assertString]
  split
  · rename_i h
    have := pipeline_performs reg w (configGlobals w g B F W) "" [banner reg]
    simpa [configGlobals, h, banner] using this
  · rename_i h
    have := pipeline_performs reg w (configGlobals w g B F W) "" [banner reg]
    simpa [configGlobals, h, banner] using this

theorem run_config_panic (reg : Registry) (w : World) (g : Globals) (m : Mapping)
    (hU : g.useConfigFile = true) (hP : g.projectConfig = some m)
    (h : (m.index "backend").assertString = none ∨ (m.index "frontend").assertString = none
      ∨ (m.index "webserver").assertString = none) :
    (runCreateCmd reg w g).trace = [banner reg]
      ∧ (runCreateCmd reg w g).outcome = Outcome.panic := by
  rw [runCreateCmd_eq, collect_config w g _ _ _ m hU hP, readConfig_mk]
  cases hb : (m.index "backend").assertString with
  | none => exact ⟨rfl, rfl⟩
  | some b =>
    cases hf : (m.index "frontend").assertString with
    | none => exact ⟨rfl, rfl⟩
    | some f =>
      cases hw : (m.index "webserver").assertString with
      | none => exact ⟨rfl, rfl⟩
      | some ws => simp [hb, hf, hw] at h

theorem run_survey_error (reg : Registry) (w : World) (g : Globals) (err : String)
    (hS : g.useConfigFile = false ∨ g.projectConfig = none)
    (hE : (w.Ask g.createAnswers).1 = some err) :
    (runCreateCmd reg w g).trace = [banner reg,
        Event.ask (some err) (w.Ask g.createAnswers).2,
        Event.sendMsg true "[ERROR]" err "red" true]
      ∧ (runCreateCmd reg w g).outcome = Outcome.exit 1 := by
  rw [runCreateCmd_eq, collect_survey w g _ _ _ hS, runSurvey_mk]
  simp [hE, Run.trace, banner]

theorem run_survey_abort (reg : Registry) (w : World) (g : Globals)
    (hS : g.useConfigFile = false ∨ g.projectConfig = none)
    (hE : (w.Ask g.createAnswers).1 = none)
    (hA : (w.Ask g.createAnswers).2.AgreeCreation = false) :
    (runCreateCmd reg w g).trace = [banner reg,
        Event.ask none (w.Ask g.createAnswers).2,
        Event.sendMsg true "[!]" "You're stopped creation of a new project." "red" false,
        Event.sendMsg false "[!]" "Run `cgapp create` once again!" "red" true]
      ∧ (runCreateCmd reg w g).outcome = Outcome.exit 1 := by
  rw [runCreateCmd_eq, collect_survey w g _ _ _ hS, runSurvey_mk]
  simp [hE, hA, Run.trace, banner]

theorem run_survey_ok (reg : Registry) (w : World) (g : Globals)
    (hS : g.useConfigFile = false ∨ g.projectConfig = none)
    (hE : (w.Ask g.createAnswers).1 = none)
    (hA : (w.Ask g.createAnswers).2.AgreeCreation = true) :
    Performs (runCreateCmd reg w g) (surveyGlobals w g)
      [banner reg, Event.ask none (w.Ask g.createAnswers).2]
      (plannedCalls reg w (surveyGlobals w g)) := by
  rw [runCreateCmd_eq, collect_survey w g _ _ _ hS, runSurvey_mk]
  simp only [hE, hA]
  have := pipeline_performs reg w (surveyGlobals w g) ""
    [banner reg, Event.ask none (w.Ask g.createAnswers).2, Event.sendMsg false "" "" "" false]
  simpa [Performs, surveyGlobals, banner, stepsOf, Event.isStep] using this

/-! ## Lists of calls cut at the first failure -/

theorem failed_isStep (e : Event) (h : e.failed = true) : e.isStep = true := by
  cases e <;> simp_all [Event.failed, Event.isStep]

theorem mem_stepsOf (e : Event) (t : List Event) :
    e ∈ stepsOf t ↔ e ∈ t ∧ e.isStep = true := by
  simp [stepsOf, List.mem_filter]

theorem untilFailure_initial (l : List Event) : untilFailure l <+: l := by
  induction l with
  | nil => simp [untilFailure]
  | cons e rest ih =>
    unfold untilFailure
    split
    · exact ⟨rest, rfl⟩
    · exact (List.prefix_cons_inj e).2 ih

theorem untilFailure_sublist (l : List Event) : (untilFailure l).Sublist l :=
  (untilFailure_initial l).sublist

theorem untilFailure_subset (l : List Event) {e : Event} (h : e ∈ untilFailure l) : e ∈ l :=
  (untilFailure_sublist l).subset h

theorem untilFailure_of_no_failure (l : List Event) (h : l.any Event.failed = false) :
    untilFailure l = l := by
  induction l with
  | nil => rfl
  | cons e rest ih =>
    simp only [List.any_cons, Bool.or_eq_false_iff] at h
    simp [untilFailure, h.1, ih h.2]

theorem untilFailure_failed_last (l : List Event) (a : List Event) (e : Event)
    (b : List Event) (h : untilFailure l = a ++ e :: b) (he : e.failed = true) : b = [] := by
  induction l generalizing a with
  | nil => simp [untilFailure] at h
  | cons x rest ih =>
    unfold untilFailure at h
    split at h
    · cases a with
      | nil => simp at h; exact h.2
      | cons y a' => simp at h
    · rename_i hx
      cases a with
      | nil =>
        simp at h
        rw [h.1] at hx
        exact absurd he hx
      | cons y a' =>
        simp at h
        exact ih a' h.2

theorem untilFailure_append_cons (a : List Event) (e : Event) (b : List Event) :
    untilFailure (a ++ e :: b) =
      if a.any Event.failed = true then untilFailure a
      else if e.failed = true then a ++ [e] else a ++ e :: untilFailure b := by
  induction a with
  | nil => simp [untilFailure]
  | cons x rest ih =>
    by_cases hx : x.failed = true
    · simp [untilFailure, hx]
    · simp only [Bool.not_eq_true] at hx
      have hcons : untilFailure (x :: (rest ++ e :: b)) = x :: untilFailure (rest ++ e :: b) := by
        simp [untilFailure, hx]
      have hcons2 : untilFailure (x :: rest) = x :: untilFailure rest := by
        simp [untilFailure, hx]
      rw [List.cons_append, hcons, ih, hcons2, List.any_cons, hx, Bool.false_or]
      by_cases h1 : rest.any Event.failed = true
      · simp [h1]
      · by_cases h2 : e.failed = true <;> simp [h1, h2]

/-! ## The shape of every run -/

theorem run_steps (reg : Registry) (w : World) (g : Globals) :
    ((stepsOf (runCreateCmd reg w g).trace = []
        ∧ (runCreateCmd reg w g).outcome = Outcome.panic)
      ∨ (∃ err a, stepsOf (runCreateCmd reg w g).trace = [Event.ask (some err) a]
        ∧ (runCreateCmd reg w g).outcome = Outcome.exit 1)
      ∨ (∃ a, stepsOf (runCreateCmd reg w g).trace = [Event.ask none a]
        ∧ (runCreateCmd reg w g).outcome = Outcome.exit 1))
    ∨ ∃ pre, (pre = [] ∨ ∃ a, pre = [Event.ask none a])
        ∧ stepsOf (runCreateCmd reg w g).trace
            = pre ++ untilFailure (plannedCalls reg w (runCreateCmd reg w g).globals)
        ∧ (runCreateCmd reg w g).outcome
            = if (plannedCalls reg w (runCreateCmd reg w g).globals).any Event.failed
              then Outcome.exit 1 else Outcome.returned := by
  by_cases hcfg : g.useConfigFile = true ∧ ∃ m, g.projectConfig = some m
  · obtain ⟨hU, m, hP⟩ := hcfg
    cases hb : (m.index "backend").assertString with
    | none =>
      have h := run_config_panic reg w g m hU hP (Or.inl hb)
      left; left
      simp [h.1, h.2, stepsOf, banner, Event.isStep]
    | some B =>
      cases hf : (m.index "frontend").assertString with
      | none =>
        have h := run_config_panic reg w g m hU hP (Or.inr (Or.inl hf))
        left; left
        simp [h.1, h.2, stepsOf, banner, Event.isStep]
      | some F =>
        cases hw : (m.index "webserver").assertString with
        | none =>
          have h := run_config_panic reg w g m hU hP (Or.inr (Or.inr hw))
          left; left
          simp [h.1, h.2, stepsOf, banner, Event.isStep]
        | some W =>
          obtain ⟨h1, h2, h3⟩ := run_config_ok reg w g m B F W hU hP
            ((assertString_eq_some _ _).1 hb) ((assertString_eq_some _ _).1 hf)
            ((assertString_eq_some _ _).1 hw)
          right
          refine ⟨[], Or.inl rfl, ?_, ?_⟩
          · rw [h1, h2]; simp [stepsOf, banner, Event.isStep]
          · rw [h3, h2]
  · have hS : g.useConfigFile = false ∨ g.projectConfig = none := by
      by_cases hU : g.useConfigFile = true
      · right
        cases hP : g.projectConfig with
        | none => rfl
        | some m => exact absurd ⟨hU, m, hP⟩ hcfg
      · left; simpa using hU
    cases hE : (w.Ask g.createAnswers).1 with
    | some err =>
      have h := run_survey_error reg w g err hS hE
      left; right; left
      exact ⟨err, (w.Ask g.createAnswers).2, by simp [h.1, stepsOf, banner, Event.isStep], h.2⟩
    | none =>
      cases hA : (w.Ask g.createAnswers).2.AgreeCreation with
      | false =>
        have h := run_survey_abort reg w g hS hE hA
        left; right; right
        exact ⟨(w.Ask g.createAnswers).2, by simp [h.1, stepsOf, banner, Event.isStep], h.2⟩
      | true =>
        obtain ⟨h1, h2, h3⟩ := run_survey_ok reg w g hS hE hA
        right
        refine ⟨[Event.ask none (w.Ask g.createAnswers).2], Or.inr ⟨_, rfl⟩, ?_, ?_⟩
        · rw [h1, h2]; simp [stepsOf, banner, Event.isStep]
        · rw [h3, h2]

/-! ## Names passed to the materialization calls -/

theorem passedNames_stepsOf (t : List Event) : passedNames (stepsOf t) = passedNames t := by
  induction t with
  | nil => rfl
  | cons e rest ih =>
    cases e <;> simp_all [passedNames, stepsOf, Event.isStep, List.filter_cons, List.filterMap_cons]

theorem passedNames_planned (reg : Registry) (w : World) (g : Globals) :
    (passedNames (plannedCalls reg w g)).Sublist
      [("backend", g.backend), ("frontend", g.frontend), ("webserver", g.webserver)] := by
  unfold plannedCalls callsAfterGetwd callsAfterBackend
  by_cases h1 : g.installAnsibleRoles = true <;> by_cases h2 : g.frontend ≠ "none" <;>
    by_cases h3 : g.webserver ≠ "none" <;>
    simp [passedNames, h1, h2, h3, getwdCall, configCall, playbookCall, backendCall,
      frontendCall, webserverCall]

theorem passedNames_run (reg : Registry) (w : World) (g : Globals) :
    (passedNames (runCreateCmd reg w g).trace).Sublist
      [("backend", (runCreateCmd reg w g).globals.backend),
       ("frontend", (runCreateCmd reg w g).globals.frontend),
       ("webserver", (runCreateCmd reg w g).globals.webserver)] := by
  rw [← passedNames_stepsOf]
  rcases run_steps reg w g with (⟨h, _⟩ | ⟨_, _, h, _⟩ | ⟨_, h, _⟩) | ⟨pre, hpre, h, _⟩
  · simp [h, passedNames]
  · simp [h, passedNames]
  · simp [h, passedNames]
  · have hs := (untilFailure_sublist (plannedCalls reg w (runCreateCmd reg w g).globals)).filterMap
      (fun e =>
        match e with
        | Event.createProjectFromRegistry p _ _ _ => some (p.Type_, p.Name)
        | Event.createProjectFromCmd p _ _ _ => some (p.Type_, p.Name)
        | _ => none)
    have hp := passedNames_planned reg w (runCreateCmd reg w g).globals
    have : passedNames (stepsOf (runCreateCmd reg w g).trace)
        = passedNames (untilFailure (plannedCalls reg w (runCreateCmd reg w g).globals)) := by
      rw [h]
      rcases hpre with rfl | ⟨a, rfl⟩ <;> simp [passedNames]
    rw [this]
    exact hs.trans hp

/-- C1: whenever collection completes, the three stored names are the lowercased inputs, from
the config mapping as well as from the questionnaire answers, and the materialization calls
of the run are given these names: the (`Type`, `Name`) pairs they receive form, in order, a
sublist of `[(backend, lowercase B), (frontend, lowercase F), (webserver, lowercase W)]`. -/
theorem C1_name_canonicalization (reg : Registry) (w : World) (g : Globals) :
    (∀ (m : Mapping) (B F W : String), g.useConfigFile = true → g.projectConfig = some m →
      m.index "backend" = GoValue.str B → m.index "frontend" = GoValue.str F →
      m.index "webserver" = GoValue.str W →
        (runCreateCmd reg w g).globals.backend = w.ToLower B
        ∧ (runCreateCmd reg w g).globals.frontend = w.ToLower F
        ∧ (runCreateCmd reg w g).globals.webserver = w.ToLower W
        ∧ (passedNames (runCreateCmd reg w g).trace).Sublist
            [("backend", w.ToLower B), ("frontend", w.ToLower F), ("webserver", w.ToLower W)])
    ∧ ((g.useConfigFile = false ∨ g.projectConfig = none) →
      (w.Ask g.createAnswers).1 = none → (w.Ask g.createAnswers).2.AgreeCreation = true →
        (runCreateCmd reg w g).globals.backend = w.ToLower (w.Ask g.createAnswers).2.Backend
        ∧ (runCreateCmd reg w g).globals.frontend
            = w.ToLower (w.Ask g.createAnswers).2.Frontend
        ∧ (runCreateCmd reg w g).globals.webserver
            = w.ToLower (w.Ask g.createAnswers).2.Webserver
        ∧ (passedNames (runCreateCmd reg w g).trace).Sublist
            [("backend", w.ToLower (w.Ask g.createAnswers).2.Backend),
             ("frontend", w.ToLower (w.Ask g.createAnswers).2.Frontend),
             ("webserver", w.ToLower (w.Ask g.createAnswers).2.Webserver)]) := by
  constructor
  · intro m B F W hU hP hB hF hW
    have hg := (run_config_ok reg w g m B F W hU hP hB hF hW).2.1
    have hn := passedNames_run reg w g
    rw [hg] at hn
    rw [hg]
    exact ⟨rfl, rfl, rfl, hn⟩
  · intro hS hE hA
    have hg := (run_survey_ok reg w g hS hE hA).2.1
    have hn := passedNames_run reg w g
    rw [hg] at hn
    rw [hg]
    exact ⟨rfl, rfl, rfl, hn⟩

/-- C1, on the full-stack config file and on the full questionnaire answers: the stored
names are `fiber`, `react`, `nginx`, respectively `echo`, `react`, `nginx`. -/
theorem C1_name_canonicalization_witness :
    ((runCreateCmd sampleRegistry happyWorld configuredGlobals).globals.backend = "fiber"
      ∧ (runCreateCmd sampleRegistry happyWorld configuredGlobals).globals.frontend = "react"
      ∧ (runCreateCmd sampleRegistry happyWorld configuredGlobals).globals.webserver = "nginx"
      ∧ (passedNames (runCreateCmd sampleRegistry happyWorld configuredGlobals).trace).Sublist
          [("backend", "fiber"), ("frontend", "react"), ("webserver", "nginx")])
    ∧ ((runCreateCmd sampleRegistry happyWorld interactiveGlobals).globals.backend = "echo"
      ∧ (runCreateCmd sampleRegistry happyWorld interactiveGlobals).globals.frontend = "react"
      ∧ (runCreateCmd sampleRegistry happyWorld interactiveGlobals).globals.webserver = "nginx"
      ∧ (passedNames (runCreateCmd sampleRegistry happyWorld interactiveGlobals).trace).Sublist
          [("backend", "echo"), ("frontend", "react"), ("webserver", "nginx")]) :=
  ⟨(C1_name_canonicalization sampleRegistry happyWorld configuredGlobals).1 fullConfig
      "Fiber" "React" "Nginx" rfl rfl (by decide) (by decide) (by decide),
   (C1_name_canonicalization sampleRegistry happyWorld interactiveGlobals).2
      (Or.inl rfl) rfl rfl⟩

/-- C5 fails as stated: on the config path, with no `roles` section but the variable already
`true` on entry, `installAnsibleRoles` is still `true` after collection. -/
theorem C5_roles_flag_counterexample :
    staleRolesGlobals.useConfigFile = true
      ∧ staleRolesGlobals.projectConfig = some fullConfig
      ∧ staleRolesGlobals.rolesConfig = none
      ∧ (runCreateCmd sampleRegistry happyWorld staleRolesGlobals).globals.installAnsibleRoles
          = true := by
  decide

/-- C5, amended: on the config path, once the three names are read, `installAnsibleRoles` is
`true` if the configuration has a `roles` section, and otherwise keeps the value it had on
entry (so it is `false` when it was `false` on entry). -/
theorem C5_roles_flag (reg : Registry) (w : World) (g : Globals) (m : Mapping)
    (B F W : String) (hU : g.useConfigFile = true) (hP : g.projectConfig = some m)
    (hB : m.index "backend" = GoValue.str B) (hF : m.index "frontend" = GoValue.str F)
    (hW : m.index "webserver" = GoValue.str W) :
    (g.rolesConfig ≠ none → (runCreateCmd reg w g).globals.installAnsibleRoles = true)
      ∧ (g.rolesConfig = none →
          (runCreateCmd reg w g).globals.installAnsibleRoles = g.installAnsibleRoles) := by
  rw [(run_config_ok reg w g m B F W hU hP hB hF hW).2.1]
  constructor
  · intro h; simp [configGlobals, h]
  · intro h; simp [configGlobals, h]

/-- C5, amended, on the full-stack config file with a `roles` section, and on the same
config file without one. -/
theorem C5_roles_flag_witness :
    (runCreateCmd sampleRegistry happyWorld configuredGlobals).globals.installAnsibleRoles = true
      ∧ (runCreateCmd sampleRegistry happyWorld
          { configuredGlobals with rolesConfig := none }).globals.installAnsibleRoles = false :=
  ⟨(C5_roles_flag sampleRegistry happyWorld configuredGlobals fullConfig "Fiber" "React" "Nginx"
      rfl rfl (by decide) (by decide) (by decide)).1 (by decide),
   (C5_roles_flag sampleRegistry happyWorld { configuredGlobals with rolesConfig := none }
      fullConfig "Fiber" "React" "Nginx" rfl rfl (by decide) (by decide) (by decide)).2 rfl⟩

/-- C6: in an interactive run whose questionnaire succeeds with `AgreeCreation` false, the
process exits with code 1, and the trace holds no file write, no clone, no generator call and
no working-directory lookup. -/
theorem C6_abort (reg : Registry) (w : World) (g : Globals)
    (hS : g.useConfigFile = false ∨ g.projectConfig = none)
    (hE : (w.Ask g.createAnswers).1 = none)
    (hA : (w.Ask g.createAnswers).2.AgreeCreation = false) :
    (runCreateCmd reg w g).outcome = Outcome.exit 1
      ∧ (runCreateCmd reg w g).trace.any Event.isFileWrite = false
      ∧ (runCreateCmd reg w g).trace.any Event.isClone = false
      ∧ (runCreateCmd reg w g).trace.any Event.isGenerator = false
      ∧ (runCreateCmd reg w g).trace.any Event.isGetwd = false := by
  obtain ⟨ht, ho⟩ := run_survey_abort reg w g hS hE hA
  rw [ht]
  simp [ho, banner, Event.isFileWrite, Event.isClone, Event.isGenerator, Event.isGetwd]

/-- C6, on a user who declines the confirmation. -/
theorem C6_abort_witness :
    (runCreateCmd sampleRegistry decliningWorld interactiveGlobals).outcome = Outcome.exit 1
      ∧ (runCreateCmd sampleRegistry decliningWorld interactiveGlobals).trace.any
          Event.isFileWrite = false
      ∧ (runCreateCmd sampleRegistry decliningWorld interactiveGlobals).trace.any
          Event.isClone = false
      ∧ (runCreateCmd sampleRegistry decliningWorld interactiveGlobals).trace.any
          Event.isGenerator = false
      ∧ (runCreateCmd sampleRegistry decliningWorld interactiveGlobals).trace.any
          Event.isGetwd = false :=
  C6_abort sampleRegistry decliningWorld interactiveGlobals (Or.inl rfl) rfl rfl

/-- C8 fails on the code: with a config mapping that lacks the `backend` key, and with one whose
`frontend` value is not a string, the run does not exit with code 1 but leaves by a run-time
panic of the unchecked type assertion; nothing but the start message has happened. -/
theorem C8_malformed_config_panics :
    ((runCreateCmd sampleRegistry happyWorld missingBackendGlobals).outcome = Outcome.panic
      ∧ (runCreateCmd sampleRegistry happyWorld missingBackendGlobals).outcome ≠ Outcome.exit 1
      ∧ (runCreateCmd sampleRegistry happyWorld missingBackendGlobals).trace
          = [banner sampleRegistry])
    ∧ ((runCreateCmd sampleRegistry happyWorld numericFrontendGlobals).outcome = Outcome.panic
      ∧ (runCreateCmd sampleRegistry happyWorld numericFrontendGlobals).outcome ≠ Outcome.exit 1
      ∧ (runCreateCmd sampleRegistry happyWorld numericFrontendGlobals).trace
          = [banner sampleRegistry]) := by
  decide

/-! ## Runs that reach the backend block -/

theorem any_stepsOf (q : Event → Bool) (hq : ∀ e, q e = true → e.isStep = true)
    (t : List Event) : (stepsOf t).any q = t.any q := by
  induction t with
  | nil => rfl
  | cons e rest ih =>
    by_cases he : e.isStep = true
    · simp only [stepsOf] at ih ⊢
      simp [List.filter_cons, he, ih]
    · have hq' : q e = false := by
        cases hqe : q e with
        | false => rfl
        | true => exact absurd (hq e hqe) he
      simp only [stepsOf] at ih ⊢
      simp [List.filter_cons, he, ih, hq']

theorem any_false_of_sublist {q : Event → Bool} {a b : List Event} (h : a.Sublist b)
    (hb : b.any q = false) : a.any q = false := by
  cases ha : a.any q with
  | false => rfl
  | true =>
    rw [List.any_eq_true] at ha
    obtain ⟨x, hx, hqx⟩ := ha
    have : b.any q = true := List.any_eq_true.2 ⟨x, h.subset hx, hqx⟩
    rw [hb] at this
    cases this

theorem plannedCalls_split (reg : Registry) (w : World) (g : Globals) :
    plannedCalls reg w g
      = callsBeforeBackend reg w g
        ++ backendCall reg w g w.Getwd.1 :: callsAfterBackend reg w g w.Getwd.1 := by
  simp [plannedCalls, callsAfterGetwd, callsBeforeBackend]

theorem callsBeforeBackend_no_clone (reg : Registry) (w : World) (g : Globals) :
    (callsBeforeBackend reg w g).any Event.isClone = false
      ∧ (callsBeforeBackend reg w g).any Event.isGenerator = false := by
  unfold callsBeforeBackend
  split <;> simp [getwdCall, configCall, playbookCall, Event.isClone, Event.isGenerator]

theorem run_reach (reg : Registry) (w : World) (g : Globals) :
    ((stepsOf (runCreateCmd reg w g).trace).any Event.isClone = false
      ∧ (stepsOf (runCreateCmd reg w g).trace).any Event.isGenerator = false)
    ∨ ∃ pre, (pre = [] ∨ ∃ a, pre = [Event.ask none a])
        ∧ (callsBeforeBackend reg w (runCreateCmd reg w g).globals).any Event.failed = false
        ∧ stepsOf (runCreateCmd reg w g).trace
            = pre ++ (callsBeforeBackend reg w (runCreateCmd reg w g).globals
                ++ stepsFromBackend reg w (runCreateCmd reg w g).globals) := by
  rcases run_steps reg w g with (⟨h, _⟩ | ⟨_, _, h, _⟩ | ⟨_, h, _⟩) | ⟨pre, hpre, h, _⟩
  · left; simp [h]
  · left; simp [h, Event.isClone, Event.isGenerator]
  · left; simp [h, Event.isClone, Event.isGenerator]
  · rw [plannedCalls_split, untilFailure_append_cons] at h
    by_cases hA : (callsBeforeBackend reg w (runCreateCmd reg w g).globals).any Event.failed = true
    · left
      rw [if_pos hA] at h
      have hc := callsBeforeBackend_no_clone reg w (runCreateCmd reg w g).globals
      have h1 := any_false_of_sublist (untilFailure_sublist _) hc.1
      have h2 := any_false_of_sublist (untilFailure_sublist _) hc.2
      rw [h]
      rcases hpre with rfl | ⟨a, rfl⟩ <;>
        simp [List.any_append, h1, h2, Event.isClone, Event.isGenerator]
    · right
      rw [if_neg hA] at h
      refine ⟨pre, hpre, by simpa using hA, ?_⟩
      rw [h]
      unfold stepsFromBackend
      split <;> simp

theorem untilFailure_callsAfterBackend (reg : Registry) (w : World) (g : Globals)
    (d : String) :
    untilFailure (callsAfterBackend reg w g d) =
      if g.frontend ≠ "none" then
        (if (frontendCall reg w g d).failed = true then [frontendCall reg w g d]
         else frontendCall reg w g d ::
           (if g.webserver ≠ "none" then [webserverCall reg w g d] else []))
      else (if g.webserver ≠ "none" then [webserverCall reg w g d] else []) := by
  unfold callsAfterBackend
  by_cases h1 : g.frontend ≠ "none" <;> by_cases h2 : g.webserver ≠ "none" <;>
    simp [h1, h2, untilFailure]

theorem run_steps_untilFailure (reg : Registry) (w : World) (g : Globals) :
    ∃ L, stepsOf (runCreateCmd reg w g).trace = untilFailure L
      ∧ (L.any Event.failed = true → (runCreateCmd reg w g).outcome = Outcome.exit 1) := by
  rcases run_steps reg w g with (⟨h, _⟩ | ⟨err, a, h, ho⟩ | ⟨a, h, ho⟩) | ⟨pre, hpre, h, ho⟩
  · exact ⟨[], by simp [h, untilFailure], by simp⟩
  · exact ⟨[Event.ask (some err) a], by simp [h, untilFailure], fun _ => ho⟩
  · exact ⟨[Event.ask none a], by simp [h, untilFailure], fun _ => ho⟩
  · refine ⟨pre ++ plannedCalls reg w (runCreateCmd reg w g).globals, ?_, ?_⟩
    · rw [h]
      rcases hpre with rfl | ⟨a, rfl⟩ <;> simp [untilFailure, Event.failed]
    · intro hf
      have : (plannedCalls reg w (runCreateCmd reg w g).globals).any Event.failed = true := by
        rcases hpre with rfl | ⟨a, rfl⟩
        · simpa using hf
        · simpa [Event.failed] using hf
      rw [ho, if_pos this]

/-- C7: in every run, a step that returns an error is the last step of the run (no call
other than progress messages follows it) and the process exits with code 1; in particular,
when the frontend generator returns an error, the backend materialization has already run
successfully and the webserver materialization is never invoked. -/
theorem C7_fail_fast (reg : Registry) (w : World) (g : Globals) :
    (∀ (pre : List Event) (e : Event) (post : List Event),
      (runCreateCmd reg w g).trace = pre ++ e :: post → e.failed = true →
        post.any Event.isStep = false ∧ (runCreateCmd reg w g).outcome = Outcome.exit 1)
    ∧ (∀ (p : Project) (table : CommandTable) (pattern err : String),
      Event.createProjectFromCmd p table pattern (some err) ∈ (runCreateCmd reg w g).trace →
        (runCreateCmd reg w g).trace.any
            (fun e => e.isMaterialization "backend" && !e.failed) = true
        ∧ (runCreateCmd reg w g).trace.any (Event.isMaterialization "webserver") = false) := by
  constructor
  · intro pre e post hdec hfail
    obtain ⟨L, hL, hout⟩ := run_steps_untilFailure reg w g
    have hstep := failed_isStep e hfail
    have hs : stepsOf (runCreateCmd reg w g).trace = stepsOf pre ++ e :: stepsOf post := by
      rw [hdec, stepsOf_append]
      simp [stepsOf, List.filter_cons, hstep]
    rw [hL] at hs
    have hpost := untilFailure_failed_last L _ e _ hs hfail
    constructor
    · cases hany : post.any Event.isStep with
      | false => rfl
      | true =>
        rw [List.any_eq_true] at hany
        obtain ⟨x, hx, hxs⟩ := hany
        have : x ∈ stepsOf post := (mem_stepsOf x post).2 ⟨hx, hxs⟩
        rw [hpost] at this
        cases this
    · apply hout
      have hmem : e ∈ untilFailure L := by rw [hs]; simp
      exact List.any_eq_true.2 ⟨e, untilFailure_subset L hmem, hfail⟩
  · intro p table pattern err hmem
    have hq1 : ∀ e : Event, (e.isMaterialization "backend" && !e.failed) = true →
        e.isStep = true := by
      intro e he; cases e <;> simp_all [Event.isMaterialization, Event.isStep]
    have hq2 : ∀ e : Event, e.isMaterialization "webserver" = true → e.isStep = true := by
      intro e he; cases e <;> simp_all [Event.isMaterialization, Event.isStep]
    rw [← any_stepsOf _ hq1, ← any_stepsOf _ hq2]
    have hmem' : Event.createProjectFromCmd p table pattern (some err)
        ∈ stepsOf (runCreateCmd reg w g).trace :=
      (mem_stepsOf _ _).2 ⟨hmem, rfl⟩
    rcases run_reach reg w g with ⟨_, hno⟩ | ⟨pre, hpre, hA, hs⟩
    · have : (stepsOf (runCreateCmd reg w g).trace).any Event.isGenerator = true :=
        List.any_eq_true.2 ⟨_, hmem', rfl⟩
      rw [hno] at this
      cases this
    · have hc := callsBeforeBackend_no_clone reg w (runCreateCmd reg w g).globals
      rw [hs] at hmem' ⊢
      unfold stepsFromBackend at hmem' ⊢
      rw [untilFailure_callsAfterBackend] at hmem' ⊢
      have hcb : ∀ x ∈ callsBeforeBackend reg w (runCreateCmd reg w g).globals,
          x.isGenerator = false ∧ x.isMaterialization "webserver" = false := by
        intro x hx
        unfold callsBeforeBackend at hx
        split at hx <;> simp at hx <;> rcases hx with rfl | rfl | rfl <;>
          simp [getwdCall, configCall, playbookCall, Event.isGenerator, Event.isMaterialization]
      have hAw : (callsBeforeBackend reg w (runCreateCmd reg w g).globals).any
          (Event.isMaterialization "webserver") = false := by
        rw [List.any_eq_false]
        intro x hx
        simp [(hcb x hx).2]
      have hnotA : Event.createProjectFromCmd p table pattern (some err)
          ∉ callsBeforeBackend reg w (runCreateCmd reg w g).globals := by
        intro hx
        have := (hcb _ hx).1
        simp [Event.isGenerator] at this
      have hnotpre : Event.createProjectFromCmd p table pattern (some err) ∉ pre := by
        rcases hpre with rfl | ⟨a, rfl⟩ <;> simp
      have hprew : pre.any (Event.isMaterialization "webserver") = false := by
        rcases hpre with rfl | ⟨a, rfl⟩ <;> simp [Event.isMaterialization]
      simp only [List.mem_append, hnotA, hnotpre, false_or] at hmem'
      simp only [List.any_append, hAw, hprew, Bool.false_or]
      by_cases hbe : (backendCall reg w (runCreateCmd reg w g).globals w.Getwd.1).failed = true
      · rw [if_pos hbe] at hmem'
        simp [backendCall] at hmem'
      · rw [if_neg hbe] at hmem' ⊢
        have hbe' : (w.CreateProjectFromRegistry
            ⟨"backend", (runCreateCmd reg w g).globals.backend, w.Getwd.1⟩ reg.Repositories
            reg.RegexpBackendPattern) = none := by
          simpa [backendCall, Event.failed] using hbe
        by_cases hfe : (runCreateCmd reg w g).globals.frontend ≠ "none"
        · rw [if_pos hfe] at hmem' ⊢
          by_cases hff : (frontendCall reg w (runCreateCmd reg w g).globals w.Getwd.1).failed
              = true
          · rw [if_pos hff]
            simp [backendCall, frontendCall, Event.isMaterialization, Event.failed, hbe']
          · exfalso
            rw [if_neg hff] at hmem'
            have hne : Event.createProjectFromCmd p table pattern (some err)
                ≠ frontendCall reg w (runCreateCmd reg w g).globals w.Getwd.1 := by
              intro heq
              rw [← heq] at hff
              simp [Event.failed] at hff
            split at hmem' <;> simp [hne, backendCall, webserverCall] at hmem'
        · exfalso
          rw [if_neg hfe] at hmem'
          split at hmem' <;> simp [backendCall, webserverCall] at hmem'

/-- C7, on a run whose frontend generator fails: only the error message follows the failed
call, the exit code is 1, the backend was materialized and the webserver was not. -/
theorem C7_fail_fast_witness :
    (((runCreateCmd sampleRegistry brokenGeneratorWorld interactiveGlobals).trace.drop 12).any
          Event.isStep = false
      ∧ (runCreateCmd sampleRegistry brokenGeneratorWorld interactiveGlobals).outcome
          = Outcome.exit 1)
    ∧ ((runCreateCmd sampleRegistry brokenGeneratorWorld interactiveGlobals).trace.any
          (fun e => e.isMaterialization "backend" && !e.failed) = true
      ∧ (runCreateCmd sampleRegistry brokenGeneratorWorld interactiveGlobals).trace.any
          (Event.isMaterialization "webserver") = false) :=
  ⟨(C7_fail_fast sampleRegistry brokenGeneratorWorld interactiveGlobals).1
      ((runCreateCmd sampleRegistry brokenGeneratorWorld interactiveGlobals).trace.take 11)
      (Event.createProjectFromCmd ⟨"frontend", "react", "/work"⟩ sampleRegistry.Commands
        sampleRegistry.RegexpFrontendPattern (some "exit status 1"))
      ((runCreateCmd sampleRegistry brokenGeneratorWorld interactiveGlobals).trace.drop 12)
      (by decide) rfl,
   (C7_fail_fast sampleRegistry brokenGeneratorWorld interactiveGlobals).2
      ⟨"frontend", "react", "/work"⟩ sampleRegistry.Commands
      sampleRegistry.RegexpFrontendPattern "exit status 1" (by decide)⟩

/-! ## Counting the optional steps -/

theorem countP_stepsOf (q : Event → Bool) (hq : ∀ e, q e = true → e.isStep = true)
    (t : List Event) : (stepsOf t).countP q = t.countP q := by
  induction t with
  | nil => rfl
  | cons e rest ih =>
    by_cases he : e.isStep = true
    · simp only [stepsOf] at ih ⊢
      simp [List.filter_cons, he, ih, List.countP_cons]
    · have hq' : q e = false := by
        cases hqe : q e with
        | false => rfl
        | true => exact absurd (hq e hqe) he
      simp only [stepsOf] at ih ⊢
      simp [List.filter_cons, he, ih, List.countP_cons, hq']

theorem stepsFromBackend_cases (reg : Registry) (w : World) (g : Globals) :
    ((backendCall reg w g w.Getwd.1).failed = true
      ∧ stepsFromBackend reg w g = [backendCall reg w g w.Getwd.1])
    ∨ ((backendCall reg w g w.Getwd.1).failed = false ∧ g.frontend ≠ "none"
      ∧ (frontendCall reg w g w.Getwd.1).failed = true
      ∧ stepsFromBackend reg w g
          = [backendCall reg w g w.Getwd.1, frontendCall reg w g w.Getwd.1])
    ∨ ((backendCall reg w g w.Getwd.1).failed = false ∧ g.frontend ≠ "none"
      ∧ (frontendCall reg w g w.Getwd.1).failed = false
      ∧ stepsFromBackend reg w g
          = backendCall reg w g w.Getwd.1 :: frontendCall reg w g w.Getwd.1 ::
              (if g.webserver ≠ "none" then [webserverCall reg w g w.Getwd.1] else []))
    ∨ ((backendCall reg w g w.Getwd.1).failed = false ∧ g.frontend = "none"
      ∧ stepsFromBackend reg w g
          = backendCall reg w g w.Getwd.1 ::
              (if g.webserver ≠ "none" then [webserverCall reg w g w.Getwd.1] else [])) := by
  unfold stepsFromBackend
  rw [untilFailure_callsAfterBackend]
  by_cases hbe : (backendCall reg w g w.Getwd.1).failed = true
  · left; exact ⟨hbe, by rw [if_pos hbe]⟩
  · right
    rw [if_neg hbe]
    simp only [Bool.not_eq_true] at hbe
    by_cases hfe : g.frontend ≠ "none"
    · rw [if_pos hfe]
      by_cases hff : (frontendCall reg w g w.Getwd.1).failed = true
      · left; exact ⟨hbe, hfe, hff, by rw [if_pos hff]⟩
      · right; left
        rw [if_neg hff]
        simp only [Bool.not_eq_true] at hff
        exact ⟨hbe, hfe, hff, rfl⟩
    · right; right
      rw [if_neg hfe]
      simp only [ne_eq, not_not] at hfe
      exact ⟨hbe, hfe, rfl⟩

theorem before_backend_irrelevant (q : Event → Bool)
    (hq : ∀ e, q e = true → e.isClone = true ∨ e.isGenerator = true)
    (reg : Registry) (w : World) (g : Globals) (pre : List Event)
    (hpre : pre = [] ∨ ∃ a, pre = [Event.ask none a]) :
    ∀ x ∈ pre ++ callsBeforeBackend reg w g, q x = false := by
  intro x hx
  cases hqx : q x with
  | false => rfl
  | true =>
    exfalso
    have hcg := hq x hqx
    rw [List.mem_append] at hx
    rcases hx with hx | hx
    · rcases hpre with rfl | ⟨a, rfl⟩
      · cases hx
      · simp at hx; subst hx
        simp [Event.isClone, Event.isGenerator] at hcg
    · unfold callsBeforeBackend at hx
      split at hx <;> simp at hx <;> rcases hx with rfl | rfl | rfl <;>
        simp [getwdCall, configCall, playbookCall, Event.isClone, Event.isGenerator] at hcg

theorem countP_reach (q : Event → Bool)
    (hq : ∀ e, q e = true → e.isClone = true ∨ e.isGenerator = true)
    (reg : Registry) (w : World) (g : Globals) (pre : List Event)
    (hpre : pre = [] ∨ ∃ a, pre = [Event.ask none a]) (S : List Event) :
    (pre ++ (callsBeforeBackend reg w g ++ S)).countP q = S.countP q := by
  rw [← List.append_assoc, List.countP_append]
  have h0 : (pre ++ callsBeforeBackend reg w g).countP q = 0 := by
    rw [List.countP_eq_zero]
    intro x hx
    simp [before_backend_irrelevant q hq reg w g pre hpre x hx]
  rw [h0, Nat.zero_add]

theorem any_reach (q : Event → Bool)
    (hq : ∀ e, q e = true → e.isClone = true ∨ e.isGenerator = true)
    (reg : Registry) (w : World) (g : Globals) (pre : List Event)
    (hpre : pre = [] ∨ ∃ a, pre = [Event.ask none a]) (S : List Event) :
    (pre ++ (callsBeforeBackend reg w g ++ S)).any q = S.any q := by
  rw [← List.append_assoc, List.any_append]
  have h0 : (pre ++ callsBeforeBackend reg w g).any q = false := by
    rw [List.any_eq_false]
    intro x hx
    simp [before_backend_irrelevant q hq reg w g pre hpre x hx]
  rw [h0, Bool.false_or]

theorem countP_eq_zero_of_any_false (q : Event → Bool) (t : List Event)
    (h : t.any q = false) : t.countP q = 0 := by
  rw [List.countP_eq_zero]
  rw [List.any_eq_false] at h
  intro x hx
  simpa using h x hx

theorem isStep_of_kind (e : Event) (h : e.isClone = true ∨ e.isGenerator = true) :
    e.isStep = true := by
  cases e <;> simp_all [Event.isClone, Event.isGenerator, Event.isStep]

theorem generator_kind (e : Event) (h : e.isGenerator = true) :
    e.isClone = true ∨ e.isGenerator = true := Or.inr h

theorem webserver_kind (e : Event) (h : e.isMaterialization "webserver" = true) :
    e.isClone = true ∨ e.isGenerator = true := by
  cases e <;> simp_all [Event.isMaterialization, Event.isClone]

theorem backend_ok_kind (e : Event)
    (h : (e.isMaterialization "backend" && !e.failed) = true) :
    e.isClone = true ∨ e.isGenerator = true := by
  cases e <;> simp_all [Event.isMaterialization, Event.isClone]

theorem generator_failed_kind (e : Event) (h : (e.isGenerator && e.failed) = true) :
    e.isClone = true ∨ e.isGenerator = true := by
  cases e <;> simp_all [Event.isGenerator]

theorem backendCall_kind (reg : Registry) (w : World) (g : Globals) (d : String) :
    (backendCall reg w g d).isGenerator = false
      ∧ (backendCall reg w g d).isMaterialization "webserver" = false
      ∧ (backendCall reg w g d).isMaterialization "backend" = true := by
  simp [backendCall, Event.isGenerator, Event.isMaterialization]

theorem frontendCall_kind (reg : Registry) (w : World) (g : Globals) (d : String) :
    (frontendCall reg w g d).isGenerator = true
      ∧ (frontendCall reg w g d).isMaterialization "webserver" = false
      ∧ (frontendCall reg w g d).isMaterialization "backend" = false := by
  simp [frontendCall, Event.isGenerator, Event.isMaterialization]

theorem webserverCall_kind (reg : Registry) (w : World) (g : Globals) (d : String) :
    (webserverCall reg w g d).isGenerator = false
      ∧ (webserverCall reg w g d).isMaterialization "webserver" = true
      ∧ (webserverCall reg w g d).isMaterialization "backend" = false := by
  simp [webserverCall, Event.isGenerator, Event.isMaterialization]

theorem sentinel_counts (reg : Registry) (w : World) (g : Globals) :
    ((runCreateCmd reg w g).globals.frontend = "none" →
      (runCreateCmd reg w g).trace.countP Event.isGenerator = 0)
    ∧ ((runCreateCmd reg w g).globals.webserver = "none" →
      (runCreateCmd reg w g).trace.countP (Event.isMaterialization "webserver") = 0)
    ∧ ((runCreateCmd reg w g).trace.any
          (fun e => e.isMaterialization "backend" && !e.failed) = true →
      (runCreateCmd reg w g).globals.frontend ≠ "none" →
      (runCreateCmd reg w g).trace.countP Event.isGenerator = 1)
    ∧ ((runCreateCmd reg w g).trace.any
          (fun e => e.isMaterialization "backend" && !e.failed) = true →
      (runCreateCmd reg w g).trace.any (fun e => e.isGenerator && e.failed) = false →
      (runCreateCmd reg w g).globals.webserver ≠ "none" →
      (runCreateCmd reg w g).trace.countP (Event.isMaterialization "webserver") = 1) := by
  have hqG := generator_kind
  have hqW := webserver_kind
  have hqB := backend_ok_kind
  have hqF := generator_failed_kind
  rw [← countP_stepsOf _ (fun e h => isStep_of_kind e (hqG e h)),
    ← countP_stepsOf _ (fun e h => isStep_of_kind e (hqW e h)),
    ← any_stepsOf _ (fun e h => isStep_of_kind e (hqB e h)),
    ← any_stepsOf _ (fun e h => isStep_of_kind e (hqF e h))]
  rcases run_reach reg w g with ⟨hnc, hng⟩ | ⟨pre, hpre, _, hs⟩
  · have hW0 : (stepsOf (runCreateCmd reg w g).trace).any (Event.isMaterialization "webserver")
        = false := by
      rw [List.any_eq_false] at hnc ⊢
      intro x hx
      have := hnc x hx
      cases x <;> simp_all [Event.isMaterialization, Event.isClone]
    have hB0 : (stepsOf (runCreateCmd reg w g).trace).any
        (fun e => e.isMaterialization "backend" && !e.failed) = false := by
      rw [List.any_eq_false] at hnc ⊢
      intro x hx
      have := hnc x hx
      cases x <;> simp_all [Event.isMaterialization, Event.isClone]
    refine ⟨fun _ => countP_eq_zero_of_any_false _ _ hng,
      fun _ => countP_eq_zero_of_any_false _ _ hW0, ?_, ?_⟩
    · intro h; rw [hB0] at h; cases h
    · intro h; rw [hB0] at h; cases h
  · rw [hs, countP_reach _ hqG _ _ _ _ hpre, countP_reach _ hqW _ _ _ _ hpre,
      any_reach _ hqB _ _ _ _ hpre, any_reach _ hqF _ _ _ _ hpre]
    clear hs hqG hqW hqB hqF
    generalize (runCreateCmd reg w g).globals = G
    have kb := backendCall_kind reg w G w.Getwd.1
    have kf := frontendCall_kind reg w G w.Getwd.1
    have kw := webserverCall_kind reg w G w.Getwd.1
    rcases stepsFromBackend_cases reg w G with
      ⟨hbe, hS⟩ | ⟨hbe, hfe, hff, hS⟩ | ⟨hbe, hfe, hff, hS⟩ | ⟨hbe, hfe, hS⟩
    · rw [hS]
      simp [List.countP_cons, kb.1, kb.2.1, kb.2.2, hbe]
    · rw [hS]
      simp [List.countP_cons, kb.1, kb.2.1, kb.2.2, kf.1, kf.2.1, kf.2.2, hbe, hff, hfe]
    · rw [hS]
      by_cases hws : G.webserver ≠ "none"
      · rw [if_pos hws]
        simp [List.countP_cons, kb.1, kb.2.1, kb.2.2, kf.1, kf.2.1, kf.2.2, kw.1, kw.2.1,
          kw.2.2, hbe, hff, hfe, hws]
      · rw [if_neg hws]
        simp [List.countP_cons, kb.1, kb.2.1, kb.2.2, kf.1, kf.2.1, kf.2.2, hbe, hff, hfe, hws]
    · rw [hS]
      by_cases hws : G.webserver ≠ "none"
      · rw [if_pos hws]
        simp [List.countP_cons, kb.1, kb.2.1, kb.2.2, kw.1, kw.2.1, kw.2.2, hbe, hfe, hws]
      · rw [if_neg hws]
        simp [List.countP_cons, kb.1, kb.2.1, kb.2.2, hbe, hfe, hws]

/-- C2: in every run, when the stored frontend name is `none` the frontend generator is
never called, and when the stored webserver name is `none` the webserver materialization is
never called; conversely, when the backend materialization has succeeded and the stored
frontend name is not `none`, the generator is called exactly once, and when moreover no
generator call has failed and the stored webserver name is not `none`, the webserver
materialization is called exactly once. -/
theorem C2_skip_sentinel (reg : Registry) (w : World) (g : Globals) :
    ((runCreateCmd reg w g).globals.frontend = "none" →
      (runCreateCmd reg w g).trace.countP Event.isGenerator = 0)
    ∧ ((runCreateCmd reg w g).globals.webserver = "none" →
      (runCreateCmd reg w g).trace.countP (Event.isMaterialization "webserver") = 0)
    ∧ ((runCreateCmd reg w g).trace.any
          (fun e => e.isMaterialization "backend" && !e.failed) = true →
      (runCreateCmd reg w g).globals.frontend ≠ "none" →
      (runCreateCmd reg w g).trace.countP Event.isGenerator = 1)
    ∧ ((runCreateCmd reg w g).trace.any
          (fun e => e.isMaterialization "backend" && !e.failed) = true →
      (runCreateCmd reg w g).trace.any (fun e => e.isGenerator && e.failed) = false →
      (runCreateCmd reg w g).globals.webserver ≠ "none" →
      (runCreateCmd reg w g).trace.countP (Event.isMaterialization "webserver") = 1) :=
  sentinel_counts reg w g

/-- C2, on a run with the names `none` for frontend and webserver, and on a full-stack
run. -/
theorem C2_skip_sentinel_witness :
    (runCreateCmd sampleRegistry backendOnlyWorld interactiveGlobals).trace.countP
        Event.isGenerator = 0
    ∧ (runCreateCmd sampleRegistry backendOnlyWorld interactiveGlobals).trace.countP
        (Event.isMaterialization "webserver") = 0
    ∧ (runCreateCmd sampleRegistry happyWorld interactiveGlobals).trace.countP
        Event.isGenerator = 1
    ∧ (runCreateCmd sampleRegistry happyWorld interactiveGlobals).trace.countP
        (Event.isMaterialization "webserver") = 1 :=
  ⟨(C2_skip_sentinel sampleRegistry backendOnlyWorld interactiveGlobals).1 (by decide),
   (C2_skip_sentinel sampleRegistry backendOnlyWorld interactiveGlobals).2.1 (by decide),
   (C2_skip_sentinel sampleRegistry happyWorld interactiveGlobals).2.2.1 (by decide)
     (by decide),
   (C2_skip_sentinel sampleRegistry happyWorld interactiveGlobals).2.2.2 (by decide)
     (by decide) (by decide)⟩

/-! ## Emission order -/

theorem phasesOf_stepsOf (t : List Event) : phasesOf (stepsOf t) = phasesOf t := by
  induction t with
  | nil => rfl
  | cons e rest ih =>
    simp only [phasesOf, stepsOf] at ih ⊢
    cases e <;> simp [Event.isStep, List.filter_cons, List.filterMap_cons, Event.phase, ih]

theorem phasesOf_append (a b : List Event) : phasesOf (a ++ b) = phasesOf a ++ phasesOf b := by
  simp [phasesOf]

theorem phasesOf_planned (reg : Registry) (w : World) (g : Globals) :
    (phasesOf (plannedCalls reg w g)).Sublist
      [Phase.configFiles, Phase.playbook, Phase.backend, Phase.frontend, Phase.webserver] := by
  unfold plannedCalls callsAfterGetwd callsAfterBackend
  by_cases h1 : g.installAnsibleRoles = true <;> by_cases h2 : g.frontend ≠ "none" <;>
    by_cases h3 : g.webserver ≠ "none" <;>
    simp [phasesOf, Event.phase, h1, h2, h3, getwdCall, configCall, playbookCall, backendCall,
      frontendCall, webserverCall, filesToMake, fileToMake]

theorem untilFailure_cons_failed (e : Event) (rest : List Event) (h : e.failed = true) :
    untilFailure (e :: rest) = [e] := by
  simp [untilFailure, h]

theorem untilFailure_cons_ok (e : Event) (rest : List Event) (h : ¬ e.failed = true) :
    untilFailure (e :: rest) = e :: untilFailure rest := by
  simp [untilFailure, h]

theorem phase_getwdCall (w : World) : (getwdCall w).phase = none := rfl

theorem phase_configCall (reg : Registry) (w : World) (d : String) :
    (configCall reg w d).phase = some Phase.configFiles := by
  simp [configCall, Event.phase, filesToMake]

theorem phasesOf_untilFailure_planned_head (reg : Registry) (w : World) (g : Globals) :
    phasesOf (untilFailure (plannedCalls reg w g)) = []
      ∨ ∃ rest, phasesOf (untilFailure (plannedCalls reg w g)) = Phase.configFiles :: rest := by
  unfold plannedCalls callsAfterGetwd
  by_cases h1 : (getwdCall w).failed = true
  · left
    rw [untilFailure_cons_failed _ _ h1]
    simp [phasesOf, phase_getwdCall]
  · right
    rw [untilFailure_cons_ok _ _ h1]
    by_cases h2 : (configCall reg w w.Getwd.1).failed = true
    · rw [untilFailure_cons_failed _ _ h2]
      exact ⟨[], by simp [phasesOf, phase_getwdCall, phase_configCall]⟩
    · rw [untilFailure_cons_ok _ _ h2]
      simp only [phasesOf, List.filterMap_cons, phase_getwdCall, phase_configCall]
      exact ⟨_, rfl⟩

theorem config_write_first {t : List Event}
    (h : phasesOf t = [] ∨ ∃ rest, phasesOf t = Phase.configFiles :: rest)
    (pre : List Event) (e : Event) (post : List Event) (p : Phase)
    (hdec : t = pre ++ e :: post) (hp : e.phase = some p) (hne : p ≠ Phase.configFiles) :
    ∃ c ∈ pre, c.phase = some Phase.configFiles := by
  have hph : phasesOf t = phasesOf pre ++ p :: phasesOf post := by
    rw [hdec, phasesOf_append]
    simp [phasesOf, List.filterMap_cons, hp]
  cases hpre : phasesOf pre with
  | nil =>
    rw [hpre] at hph
    rcases h with h | ⟨rest, h⟩
    · rw [h] at hph; simp at hph
    · rw [h] at hph
      simp at hph
      exact absurd hph.1.symm hne
  | cons x xs =>
    rw [hpre] at hph
    rcases h with h | ⟨rest, h⟩
    · rw [h] at hph; simp at hph
    · rw [h] at hph
      simp at hph
      have hx : x ∈ phasesOf pre := by rw [hpre]; simp
      obtain ⟨c, hc, hcx⟩ := List.mem_filterMap.1 hx
      exact ⟨c, hc, by rw [hcx, ← hph.1]⟩

/-- C3: in every run, the phases of the trace form, in order, a sublist of
`[config files, playbook, backend, frontend generator, webserver]`, so each occurs at most
once and in that order; and no materialization occurs before the config-file write: an
event of the backend, frontend or webserver phase is always preceded by the write of the
four config files. -/
theorem C3_emission_order (reg : Registry) (w : World) (g : Globals) :
    (phasesOf (runCreateCmd reg w g).trace).Sublist
        [Phase.configFiles, Phase.playbook, Phase.backend, Phase.frontend, Phase.webserver]
    ∧ ∀ (pre : List Event) (e : Event) (post : List Event),
        (runCreateCmd reg w g).trace = pre ++ e :: post →
        (e.phase = some Phase.backend ∨ e.phase = some Phase.frontend
          ∨ e.phase = some Phase.webserver) →
        ∃ c ∈ pre, c.phase = some Phase.configFiles := by
  have key : (phasesOf (runCreateCmd reg w g).trace = []
      ∨ ∃ rest, phasesOf (runCreateCmd reg w g).trace = Phase.configFiles :: rest)
      ∧ (phasesOf (runCreateCmd reg w g).trace).Sublist
        [Phase.configFiles, Phase.playbook, Phase.backend, Phase.frontend, Phase.webserver] := by
    rw [← phasesOf_stepsOf]
    rcases run_steps reg w g with (⟨h, _⟩ | ⟨_, _, h, _⟩ | ⟨_, h, _⟩) | ⟨pre, hpre, h, _⟩
    · rw [h]; exact ⟨Or.inl rfl, by simp [phasesOf]⟩
    · rw [h]; exact ⟨Or.inl rfl, by simp [phasesOf, Event.phase]⟩
    · rw [h]; exact ⟨Or.inl rfl, by simp [phasesOf, Event.phase]⟩
    · have hp : phasesOf (stepsOf (runCreateCmd reg w g).trace)
          = phasesOf (untilFailure (plannedCalls reg w (runCreateCmd reg w g).globals)) := by
        rw [h, phasesOf_append]
        rcases hpre with rfl | ⟨a, rfl⟩ <;> simp [phasesOf, Event.phase]
      rw [hp]
      refine ⟨phasesOf_untilFailure_planned_head reg w _, ?_⟩
      exact ((untilFailure_sublist _).filterMap Event.phase).trans (phasesOf_planned reg w _)
  refine ⟨key.2, ?_⟩
  intro pre e post hdec hph
  rcases hph with hp | hp | hp
  · exact config_write_first key.1 pre e post _ hdec hp (by decide)
  · exact config_write_first key.1 pre e post _ hdec hp (by decide)
  · exact config_write_first key.1 pre e post _ hdec hp (by decide)

/-- C3, on a full-stack run: the webserver materialization, the last call of the trace,
is preceded by the write of the config files. -/
theorem C3_emission_order_witness :
    ((runCreateCmd sampleRegistry happyWorld interactiveGlobals).trace.take 14).any
      (fun c => decide (c.phase = some Phase.configFiles)) = true := by
  obtain ⟨c, hc, hp⟩ := (C3_emission_order sampleRegistry happyWorld interactiveGlobals).2
    ((runCreateCmd sampleRegistry happyWorld interactiveGlobals).trace.take 14)
    (Event.createProjectFromRegistry ⟨"webserver", "nginx", "/work"⟩
      sampleRegistry.Repositories sampleRegistry.RegexpWebServerPattern none)
    ((runCreateCmd sampleRegistry happyWorld interactiveGlobals).trace.drop 15)
    (by decide) (Or.inr (Or.inr (by decide)))
  exact List.any_eq_true.2 ⟨c, hc, by simp [hp]⟩

/-! ## Emitted files -/

theorem emittedFiles_append (a b : List Event) :
    emittedFiles (a ++ b) = emittedFiles a ++ emittedFiles b := by
  simp [emittedFiles, List.flatMap_append]

theorem emittedFiles_stepsOf (t : List Event) : emittedFiles (stepsOf t) = emittedFiles t := by
  induction t with
  | nil => rfl
  | cons e rest ih =>
    simp only [emittedFiles, stepsOf] at ih ⊢
    cases e <;> simp [Event.isStep, List.filter_cons, List.flatMap_cons, ih]

theorem emittedFiles_eq_nil (t : List Event) (h : t.any Event.isFileWrite = false) :
    emittedFiles t = [] := by
  induction t with
  | nil => rfl
  | cons e rest ih =>
    simp only [List.any_cons, Bool.or_eq_false_iff] at h
    have hr := ih h.2
    simp only [emittedFiles] at hr ⊢
    cases e <;> simp_all [Event.isFileWrite, List.flatMap_cons]

theorem stepsFromBackend_no_write (reg : Registry) (w : World) (g : Globals) :
    (stepsFromBackend reg w g).any Event.isFileWrite = false := by
  rcases stepsFromBackend_cases reg w g with
    ⟨_, hS⟩ | ⟨_, _, _, hS⟩ | ⟨_, _, _, hS⟩ | ⟨_, _, hS⟩ <;> rw [hS]
  · simp [backendCall, Event.isFileWrite]
  · simp [backendCall, frontendCall, Event.isFileWrite]
  · split <;> simp [backendCall, frontendCall, webserverCall, Event.isFileWrite]
  · split <;> simp [backendCall, webserverCall, Event.isFileWrite]

theorem emittedFiles_before_backend (reg : Registry) (w : World) (g : Globals)
    (hA : (callsBeforeBackend reg w g).any Event.failed = false) :
    emittedFiles (callsBeforeBackend reg w g)
      = filesToMake reg ++ (if g.installAnsibleRoles = true then fileToMake reg else []) := by
  unfold callsBeforeBackend at hA ⊢
  by_cases hi : g.installAnsibleRoles = true
  · rw [if_pos hi] at hA ⊢
    rw [if_pos hi]
    simp [getwdCall, configCall, playbookCall, Event.failed] at hA
    simp [emittedFiles, getwdCall, configCall, playbookCall, hA.2.1, hA.2.2,
      List.flatMap_cons]
  · rw [if_neg hi] at hA ⊢
    rw [if_neg hi]
    simp [getwdCall, configCall, Event.failed] at hA
    simp [emittedFiles, getwdCall, configCall, hA.2, List.flatMap_cons]

theorem emittedFiles_run (reg : Registry) (w : World) (g : Globals)
    (h : (runCreateCmd reg w g).trace.any (Event.isMaterialization "backend") = true) :
    emittedFiles (runCreateCmd reg w g).trace
      = filesToMake reg ++ (if (runCreateCmd reg w g).globals.installAnsibleRoles = true
          then fileToMake reg else []) := by
  rw [← emittedFiles_stepsOf]
  rcases run_reach reg w g with ⟨hnc, _⟩ | ⟨pre, hpre, hA, hs⟩
  · exfalso
    rw [List.any_eq_true] at h
    obtain ⟨x, hx, hxb⟩ := h
    have hstep : x.isStep = true := by
      cases x <;> simp_all [Event.isMaterialization, Event.isStep]
    have hclone : x.isClone = true := by
      cases x <;> simp_all [Event.isMaterialization, Event.isClone]
    have : (stepsOf (runCreateCmd reg w g).trace).any Event.isClone = true :=
      List.any_eq_true.2 ⟨x, (mem_stepsOf _ _).2 ⟨hx, hstep⟩, hclone⟩
    rw [hnc] at this
    cases this
  · rw [hs, emittedFiles_append, emittedFiles_append,
      emittedFiles_eq_nil _ (stepsFromBackend_no_write reg w _),
      emittedFiles_before_backend reg w _ hA]
    rcases hpre with rfl | ⟨a, rfl⟩ <;> simp [emittedFiles]

/-- C4: in every run that gets past the emit phase (the backend materialization is
invoked), the files written by the emitter are exactly `.gitignore`, `.gitattributes`,
`.editorconfig` and `Makefile` with the registry's contents, followed by
`deploy-playbook.yml` with the registry's playbook exactly when `installAnsibleRoles` is
true. -/
theorem C4_emitted_files (reg : Registry) (w : World) (g : Globals)
    (h : (runCreateCmd reg w g).trace.any (Event.isMaterialization "backend") = true) :
    emittedFiles (runCreateCmd reg w g).trace
        = [(".gitignore", reg.EmbedGitIgnore), (".gitattributes", reg.EmbedGitAttributes),
           (".editorconfig", reg.EmbedEditorConfig), ("Makefile", reg.EmbedMakefile)]
          ++ (if (runCreateCmd reg w g).globals.installAnsibleRoles = true
              then [("deploy-playbook.yml", reg.EmbedDeployPlaybook)] else [])
    ∧ ("deploy-playbook.yml" ∈ (emittedFiles (runCreateCmd reg w g).trace).map Prod.fst
        ↔ (runCreateCmd reg w g).globals.installAnsibleRoles = true) := by
  have he := emittedFiles_run reg w g h
  refine ⟨by rw [he]; rfl, ?_⟩
  rw [he]
  generalize (runCreateCmd reg w g).globals = G
  by_cases hi : G.installAnsibleRoles = true <;> simp [hi, filesToMake, fileToMake]

/-- C4, on a full-stack run with roles and on a backend-only run without. -/
theorem C4_emitted_files_witness :
    (emittedFiles (runCreateCmd sampleRegistry happyWorld interactiveGlobals).trace
        = [(".gitignore", [1]), (".gitattributes", [2]), (".editorconfig", [3]),
           ("Makefile", [4]), ("deploy-playbook.yml", [5])])
    ∧ (emittedFiles (runCreateCmd sampleRegistry backendOnlyWorld interactiveGlobals).trace
        = [(".gitignore", [1]), (".gitattributes", [2]), (".editorconfig", [3]),
           ("Makefile", [4])]) :=
  ⟨(C4_emitted_files sampleRegistry happyWorld interactiveGlobals (by decide)).1,
   (C4_emitted_files sampleRegistry backendOnlyWorld interactiveGlobals (by decide)).1⟩

/-! ## Arguments of the calls -/

theorem stepsOf_cons (e : Event) (t : List Event) :
    stepsOf (e :: t) = if e.isStep = true then e :: stepsOf t else stepsOf t := by
  simp [stepsOf, List.filter_cons]

theorem directoryCalls_cons (e : Event) (t : List Event) :
    directoryCalls (e :: t)
      = if (e.isGetwd || e.isFileWrite || e.isClone || e.isGenerator) = true
        then e :: directoryCalls t else directoryCalls t := by
  simp [directoryCalls, List.filter_cons]

theorem not_directoryCall_of_not_step (e : Event) (h : ¬ e.isStep = true) :
    ¬ (e.isGetwd || e.isFileWrite || e.isClone || e.isGenerator) = true := by
  cases e <;> simp_all [Event.isStep, Event.isGetwd, Event.isFileWrite, Event.isClone,
    Event.isGenerator]

theorem directoryCalls_stepsOf (t : List Event) :
    directoryCalls (stepsOf t) = directoryCalls t := by
  induction t with
  | nil => rfl
  | cons e rest ih =>
    rw [stepsOf_cons]
    by_cases he : e.isStep = true
    · rw [if_pos he, directoryCalls_cons, directoryCalls_cons, ih]
    · rw [if_neg he, directoryCalls_cons, if_neg (not_directoryCall_of_not_step e he), ih]

theorem directoryCalls_planned (reg : Registry) (w : World) (g : Globals) :
    directoryCalls (plannedCalls reg w g) = plannedCalls reg w g := by
  unfold plannedCalls callsAfterGetwd callsAfterBackend
  by_cases h1 : g.installAnsibleRoles = true <;> by_cases h2 : g.frontend ≠ "none" <;>
    by_cases h3 : g.webserver ≠ "none" <;>
    simp [directoryCalls, h1, h2, h3, getwdCall, configCall, playbookCall, backendCall,
      frontendCall, webserverCall, Event.isGetwd, Event.isFileWrite, Event.isClone,
      Event.isGenerator]

theorem plannedCalls_sublist (reg : Registry) (w : World) (g : Globals) :
    (plannedCalls reg w g).Sublist
      [getwdCall w, configCall reg w w.Getwd.1, playbookCall reg w w.Getwd.1,
       backendCall reg w g w.Getwd.1, frontendCall reg w g w.Getwd.1,
       webserverCall reg w g w.Getwd.1] := by
  unfold plannedCalls callsAfterGetwd callsAfterBackend
  by_cases h1 : g.installAnsibleRoles = true <;> by_cases h2 : g.frontend ≠ "none" <;>
    by_cases h3 : g.webserver ≠ "none" <;>
    simp [h1, h2, h3]

theorem directoryCalls_run (reg : Registry) (w : World) (g : Globals) :
    (directoryCalls (runCreateCmd reg w g).trace).Sublist
        (plannedCalls reg w (runCreateCmd reg w g).globals)
    ∧ ((runCreateCmd reg w g).outcome = Outcome.returned →
        directoryCalls (runCreateCmd reg w g).trace
          = plannedCalls reg w (runCreateCmd reg w g).globals) := by
  rw [← directoryCalls_stepsOf]
  rcases run_steps reg w g with (⟨h, ho⟩ | ⟨_, _, h, ho⟩ | ⟨_, h, ho⟩) | ⟨pre, hpre, h, ho⟩
  · rw [h, ho]; simp [directoryCalls]
  · rw [h, ho]
    simp [directoryCalls, Event.isGetwd, Event.isFileWrite, Event.isClone, Event.isGenerator]
  · rw [h, ho]
    simp [directoryCalls, Event.isGetwd, Event.isFileWrite, Event.isClone, Event.isGenerator]
  · have hd : directoryCalls (stepsOf (runCreateCmd reg w g).trace)
        = directoryCalls (untilFailure (plannedCalls reg w (runCreateCmd reg w g).globals)) := by
      rw [h]
      rcases hpre with rfl | ⟨a, rfl⟩ <;>
        simp [directoryCalls, Event.isGetwd, Event.isFileWrite, Event.isClone,
          Event.isGenerator]
    rw [hd]
    constructor
    · have := (untilFailure_sublist (plannedCalls reg w (runCreateCmd reg w g).globals)).filter
        (fun e => e.isGetwd || e.isFileWrite || e.isClone || e.isGenerator)
      have hp := directoryCalls_planned reg w (runCreateCmd reg w g).globals
      simp only [directoryCalls] at hp ⊢
      rw [hp] at this
      exact this
    · intro hret
      rw [ho] at hret
      have hnf : (plannedCalls reg w (runCreateCmd reg w g).globals).any Event.failed = false := by
        cases hf : (plannedCalls reg w (runCreateCmd reg w g).globals).any Event.failed with
        | false => rfl
        | true => rw [hf] at hret; simp at hret
      rw [untilFailure_of_no_failure _ hnf, directoryCalls_planned]

/-- C9: in every run, the working-directory lookup and the calls that are handed a directory
form, in order, a sublist of: the one `os.Getwd` lookup; `MakeFiles` of the four config
files and `MakeFiles` of the playbook, both into the directory that lookup returned; the
backend materialization with `Type` "backend", the stored backend name, the `Repositories`
table and `RegexpBackendPattern`; the frontend generator with `Type` "frontend", the stored
frontend name, the `Commands` table and `RegexpFrontendPattern`; the webserver
materialization with `Type` "webserver", the stored webserver name, the `Repositories`
table and `RegexpWebServerPattern`; the `RootFolder` of all three is that same directory.
A run that returns normally makes exactly the planned calls. -/
theorem C9_materialization_arguments (reg : Registry) (w : World) (g : Globals) :
    (directoryCalls (runCreateCmd reg w g).trace).Sublist
      [Event.getwd w.Getwd.1 w.Getwd.2,
       Event.makeFiles w.Getwd.1 (filesToMake reg) (w.MakeFiles w.Getwd.1 (filesToMake reg)),
       Event.makeFiles w.Getwd.1 (fileToMake reg) (w.MakeFiles w.Getwd.1 (fileToMake reg)),
       Event.createProjectFromRegistry
         ⟨"backend", (runCreateCmd reg w g).globals.backend, w.Getwd.1⟩
         reg.Repositories reg.RegexpBackendPattern
         (w.CreateProjectFromRegistry
           ⟨"backend", (runCreateCmd reg w g).globals.backend, w.Getwd.1⟩
           reg.Repositories reg.RegexpBackendPattern),
       Event.createProjectFromCmd
         ⟨"frontend", (runCreateCmd reg w g).globals.frontend, w.Getwd.1⟩
         reg.Commands reg.RegexpFrontendPattern
         (w.CreateProjectFromCmd
           ⟨"frontend", (runCreateCmd reg w g).globals.frontend, w.Getwd.1⟩
           reg.Commands reg.RegexpFrontendPattern),
       Event.createProjectFromRegistry
         ⟨"webserver", (runCreateCmd reg w g).globals.webserver, w.Getwd.1⟩
         reg.Repositories reg.RegexpWebServerPattern
         (w.CreateProjectFromRegistry
           ⟨"webserver", (runCreateCmd reg w g).globals.webserver, w.Getwd.1⟩
           reg.Repositories reg.RegexpWebServerPattern)]
    ∧ ((runCreateCmd reg w g).outcome = Outcome.returned →
        directoryCalls (runCreateCmd reg w g).trace
          = plannedCalls reg w (runCreateCmd reg w g).globals) :=
  ⟨(directoryCalls_run reg w g).1.trans (plannedCalls_sublist reg w _),
   (directoryCalls_run reg w g).2⟩

/-- C9, on a full-stack run: the six calls, each with its own arguments and all with the
directory `/work`. -/
theorem C9_materialization_arguments_witness :
    directoryCalls (runCreateCmd sampleRegistry happyWorld interactiveGlobals).trace
      = [Event.getwd "/work" none,
         Event.makeFiles "/work" (filesToMake sampleRegistry) none,
         Event.makeFiles "/work" (fileToMake sampleRegistry) none,
         Event.createProjectFromRegistry ⟨"backend", "echo", "/work"⟩
           sampleRegistry.Repositories sampleRegistry.RegexpBackendPattern none,
         Event.createProjectFromCmd ⟨"frontend", "react", "/work"⟩
           sampleRegistry.Commands sampleRegistry.RegexpFrontendPattern none,
         Event.createProjectFromRegistry ⟨"webserver", "nginx", "/work"⟩
           sampleRegistry.Repositories sampleRegistry.RegexpWebServerPattern none] :=
  (C9_materialization_arguments sampleRegistry happyWorld interactiveGlobals).2 (by decide)

/-! ## The sentinel on raw inputs -/

theorem no_call_of_trace_banner (reg : Registry) (q : Event → Bool)
    (hq : ∀ e, q e = true → e.isClone = true ∨ e.isGenerator = true) :
    [banner reg].countP q = 0 := by
  rw [List.countP_eq_zero]
  intro x hx
  simp at hx
  subst hx
  cases hqx : q (banner reg) with
  | false => simp
  | true =>
    have := hq _ hqx
    simp [banner, Event.isClone, Event.isGenerator] at this

theorem config_sentinel (reg : Registry) (w : World) (g : Globals) (m : Mapping)
    (hU : g.useConfigFile = true) (hP : g.projectConfig = some m) :
    (∀ X, m.index "frontend" = GoValue.str X → w.ToLower X = "none" →
        (runCreateCmd reg w g).trace.countP Event.isGenerator = 0)
    ∧ (∀ X, m.index "webserver" = GoValue.str X → w.ToLower X = "none" →
        (runCreateCmd reg w g).trace.countP (Event.isMaterialization "webserver") = 0) := by
  by_cases hpanic : (m.index "backend").assertString = none
      ∨ (m.index "frontend").assertString = none ∨ (m.index "webserver").assertString = none
  · have ht := (run_config_panic reg w g m hU hP hpanic).1
    rw [ht]
    exact ⟨fun _ _ _ => no_call_of_trace_banner reg _ generator_kind,
      fun _ _ _ => no_call_of_trace_banner reg _ webserver_kind⟩
  · simp only [not_or] at hpanic
    obtain ⟨hb, hf, hw⟩ := hpanic
    obtain ⟨B, hB⟩ := Option.ne_none_iff_exists'.1 hb
    obtain ⟨F, hF⟩ := Option.ne_none_iff_exists'.1 hf
    obtain ⟨W, hW⟩ := Option.ne_none_iff_exists'.1 hw
    rw [assertString_eq_some] at hB hF hW
    have hg := (run_config_ok reg w g m B F W hU hP hB hF hW).2.1
    have hc := sentinel_counts reg w g
    constructor
    · intro X hX hnone
      apply hc.1
      rw [hF] at hX
      cases hX
      rw [hg]
      exact hnone
    · intro X hX hnone
      apply hc.2.1
      rw [hW] at hX
      cases hX
      rw [hg]
      exact hnone

theorem survey_sentinel (reg : Registry) (w : World) (g : Globals)
    (hS : g.useConfigFile = false ∨ g.projectConfig = none) :
    (w.ToLower (w.Ask g.createAnswers).2.Frontend = "none" →
        (runCreateCmd reg w g).trace.countP Event.isGenerator = 0)
    ∧ (w.ToLower (w.Ask g.createAnswers).2.Webserver = "none" →
        (runCreateCmd reg w g).trace.countP (Event.isMaterialization "webserver") = 0) := by
  cases hE : (w.Ask g.createAnswers).1 with
  | some err =>
    rw [(run_survey_error reg w g err hS hE).1]
    simp [banner, Event.isGenerator, Event.isMaterialization]
  | none =>
    cases hA : (w.Ask g.createAnswers).2.AgreeCreation with
    | false =>
      rw [(run_survey_abort reg w g hS hE hA).1]
      simp [banner, Event.isGenerator, Event.isMaterialization]
    | true =>
      have hg := (run_survey_ok reg w g hS hE hA).2.1
      have hc := sentinel_counts reg w g
      constructor
      · intro hnone
        apply hc.1
        rw [hg]
        exact hnone
      · intro hnone
        apply hc.2.1
        rw [hg]
        exact hnone

/-- C10: the `none` test sees the lowercased name: for a raw frontend or webserver input `X`
with `lowercase(X) = "none"`, read from the config mapping or given as a questionnaire
answer, the frontend generator, respectively the webserver materialization, is never called;
and the Docker containers block with its nested second test behaves, from every state and
with every rest of the function body, as the block with a single test. -/
theorem C10_case_insensitive_sentinel (reg : Registry) (w : World) (g : Globals) :
    (∀ (m : Mapping) (X : String), g.useConfigFile = true → g.projectConfig = some m →
        m.index "frontend" = GoValue.str X → w.ToLower X = "none" →
        (runCreateCmd reg w g).trace.countP Event.isGenerator = 0)
    ∧ (∀ (m : Mapping) (X : String), g.useConfigFile = true → g.projectConfig = some m →
        m.index "webserver" = GoValue.str X → w.ToLower X = "none" →
        (runCreateCmd reg w g).trace.countP (Event.isMaterialization "webserver") = 0)
    ∧ ((g.useConfigFile = false ∨ g.projectConfig = none) →
        w.ToLower (w.Ask g.createAnswers).2.Frontend = "none" →
        (runCreateCmd reg w g).trace.countP Event.isGenerator = 0)
    ∧ ((g.useConfigFile = false ∨ g.projectConfig = none) →
        w.ToLower (w.Ask g.createAnswers).2.Webserver = "none" →
        (runCreateCmd reg w g).trace.countP (Event.isMaterialization "webserver") = 0)
    ∧ (∀ (s : State) (k : State → Run),
        dockerContainers reg w s k = dockerContainersFlat reg w s k) := by
  refine ⟨fun m X hU hP => (config_sentinel reg w g m hU hP).1 X,
    fun m X hU hP => (config_sentinel reg w g m hU hP).2 X,
    fun hS => (survey_sentinel reg w g hS).1,
    fun hS => (survey_sentinel reg w g hS).2, ?_⟩
  intro s k
  unfold dockerContainers dockerContainersFlat
  by_cases h : s.globals.webserver ≠ "none"
  · rw [if_pos h, if_pos h]
    have h' : (s.emit (Event.sendMsg true "* * *" "Configuring Docker containers..."
        "yellow" false)).globals.webserver ≠ "none" := h
    rw [if_pos h']
  · rw [if_neg h, if_neg h]

/-- C10, on the config file `{backend: Fiber, frontend: None, webserver: NONE}` and on the
questionnaire answers `Echo`, `None`, `NONE`. -/
theorem C10_case_insensitive_sentinel_witness :
    (runCreateCmd sampleRegistry happyWorld shoutingGlobals).trace.countP
        Event.isGenerator = 0
    ∧ (runCreateCmd sampleRegistry happyWorld shoutingGlobals).trace.countP
        (Event.isMaterialization "webserver") = 0
    ∧ (runCreateCmd sampleRegistry backendOnlyWorld interactiveGlobals).trace.countP
        Event.isGenerator = 0
    ∧ (runCreateCmd sampleRegistry backendOnlyWorld interactiveGlobals).trace.countP
        (Event.isMaterialization "webserver") = 0 :=
  ⟨(C10_case_insensitive_sentinel sampleRegistry happyWorld shoutingGlobals).1
      shoutingConfig "None" rfl rfl (by decide) (by decide),
   (C10_case_insensitive_sentinel sampleRegistry happyWorld shoutingGlobals).2.1
      shoutingConfig "NONE" rfl rfl (by decide) (by decide),
   (C10_case_insensitive_sentinel sampleRegistry backendOnlyWorld interactiveGlobals).2.2.1
      (Or.inl rfl) (by decide),
   (C10_case_insensitive_sentinel sampleRegistry backendOnlyWorld interactiveGlobals).2.2.2.1
      (Or.inl rfl) (by decide)⟩

end Create
